import Mathlib

/-!
Verification of the FormBot serverless backend (`src/backend/lambda_function.py`)
against its natural-language specification.

The embedding below translates the relevant handlers of `lambda_function.py`
into pure Lean functions.  External stores are threaded explicitly:

* the DynamoDB `formbot-users` table (hash key `userId`) becomes a
  `List UserRec`,
* the DynamoDB `formbot-profiles` table (hash key `profileId`, see
  `create_tables.py` / `recreate_profiles_table.py`) becomes a
  `List ProfileRec` where `put_item` replaces the record with the same
  `profileId`,
* the Redis cache becomes a `RedisState`,
* wall-clock time, request headers, the caller IP and the OpenAI completion
  response are passed as parameters.

Payload values are modelled as JSON scalars (string / number / boolean /
null), following §9 of the specification ("ordered mapping of string keys to
loosely-typed values (string, number, boolean, null)"); none of the verified
claims exercises a container-valued payload field.  A profile's persisted
`fields` attribute (a JSON-encoded string in DynamoDB) is modelled
structurally by `StoredFields`, since `json.dumps`/`json.loads` round-trip.
-/

namespace FormBot

/-- A JSON scalar value, as found in a webhook payload or a response body.
Numbers are modelled as integers (every number appearing in the claims is an
integer). -/
inductive JVal where
  | str (s : String)
  | num (n : Int)
  | bool (b : Bool)
  | null
deriving DecidableEq, Repr

/-! Executable models of the Python string methods the handlers use.  The
built-in `String.toLower`/`trim`/`startsWith`/`drop` are defined by
position-based recursion that the kernel cannot evaluate, so the character
lists are used directly.  `pyLower` covers ASCII, which every key and field
name in the claims is. -/

/-- Python `s.lower()`. -/
def pyLower (s : String) : String :=
  ⟨s.data.map Char.toLower⟩

/-- Characters Python's `str.strip()` removes. -/
def isPySpace (c : Char) : Bool :=
  c = ' ' || c = '\t' || c = '\n' || c = '\r' || c = '\x0b' || c = '\x0c'

/-- Python `s.strip()`. -/
def pyStrip (s : String) : String :=
  ⟨((s.data.dropWhile isPySpace).reverse.dropWhile isPySpace).reverse⟩

/-- Python `s.startswith(p)`. -/
def pyStartsWith (s p : String) : Bool :=
  p.data.isPrefixOf s.data

/-- Python `s[n:]`. -/
def pyDropChars (s : String) (n : Nat) : String :=
  ⟨s.data.drop n⟩

/-- Python truthiness of a JSON scalar (`if v:`). -/
def JVal.truthy : JVal → Bool
  | .str s => s ≠ ""
  | .num n => n ≠ 0
  | .bool b => b
  | .null => false

/-- Python `str(v)` / f-string interpolation of a JSON scalar. -/
def JVal.pyStr : JVal → String
  | .str s => s
  | .num n => toString n
  | .bool b => if b then "True" else "False"
  | .null => "None"

/-- A parsed JSON request body: an insertion-ordered mapping from string keys
to scalar values (Python `dict`). -/
abbrev Payload := List (String × JVal)

/-- Python `body.get(k)`: `None` when the key is absent. -/
def dget (body : Payload) (k : String) : JVal :=
  (body.lookup k).getD .null

/-- Python `body.get(k, default)`. -/
def dgetD (body : Payload) (k : String) (d : JVal) : JVal :=
  (body.lookup k).getD d

/-- Python `a or b` on scalar values: `a` when truthy, else `b`. -/
def jor (a b : JVal) : JVal :=
  if a.truthy then a else b

/-- HTTP headers: exact-key string map (`headers.get(k)`). -/
abbrev Headers := List (String × String)

def hget (headers : Headers) (k : String) : Option String :=
  headers.lookup k

/-- Python `a or b` over optional header strings (both `None` and `""` are
falsy). -/
def sor (a b : Option String) : Option String :=
  match a with
  | some s => if s ≠ "" then some s else b
  | none => b

/-- `.lower().strip()` applied to the result of an `or`-chain that ends in
`or ''`.  A falsy chain result yields `""`; a truthy non-string raises
`AttributeError` in Python (modelled as `none`). -/
def pyLowerStrip (j : JVal) : Option String :=
  if j.truthy then
    match j with
    | .str s => some (pyStrip (pyLower s))
    | _ => none
  else
    some ""

/-- Python `int`-ness of a scalar for arithmetic comparison (`bool` is an
`int` in Python); a non-numeric value raises `TypeError` (modelled as
`none`). -/
def asInt : JVal → Option Int
  | .num n => some n
  | .bool b => some (if b then 1 else 0)
  | _ => none

/-! ## HTTP responses

`create_response` wraps every handler result with a status code, fixed CORS
headers and a JSON body.  The headers are constant, so a response is modelled
as a status code plus the body's key/value list.  Long free-text `help` /
`debug_info` strings of some error bodies are elided; every `error` key and
every field a claim inspects is kept verbatim. -/

structure Response where
  status : Nat
  body : List (String × JVal)
deriving DecidableEq, Repr

def create_response (status : Nat) (body : List (String × JVal)) : Response :=
  ⟨status, body⟩

/-- Read a field of a response body. -/
def Response.field (r : Response) (k : String) : Option JVal :=
  r.body.lookup k

/-! ## Data model

The two DynamoDB tables.  `formbot-users` is keyed by `userId`;
`formbot-profiles` is keyed by `profileId` alone (see
`recreate_profiles_table.py`: partition key `profileId`, GSI on
`userId`+`updatedAt`), so a `put_item` with an existing `profileId` replaces
that record wholesale, across users. -/

/-- A record of the `formbot-users` table, as written by
`handle_user_register`. -/
structure UserRec where
  userId : String
  email : String
  displayName : JVal
  profilePicture : JVal
  createdAt : Int
  lastLoginAt : Int
  orgId : JVal
  settings : JVal
deriving DecidableEq, Repr

/-- The persisted `fields` attribute of a profile (a JSON-encoded string in
DynamoDB, modelled structurally).  `rowsObj rs` is the shape the webhook
handler writes: `{"rows": [...]}` with each row a flat object of scalars.
`flat kvs` is the legacy flat-object shape (also `'{}'`, as `flat []`).
`other` stands for any other stored JSON shape; on such a shape the webhook
merge code raises (`.items()` on a non-dict / indexing a non-dict), which
surfaces as a 500. -/
inductive StoredFields where
  | rowsObj (rows : List (List (String × JVal)))
  | flat (kvs : List (String × JVal))
  | other
deriving DecidableEq, Repr

/-- A record of the `formbot-profiles` table. -/
structure ProfileRec where
  profileId : String
  userId : JVal
  label : String
  fields : StoredFields
  source : String
  sourceId : Option JVal
  profileType : Option JVal
  isDefault : Bool
  createdAt : Int
  updatedAt : Int
deriving DecidableEq, Repr

abbrev UsersTable := List UserRec
abbrev ProfilesTable := List ProfileRec

/-- DynamoDB `get_item` on `formbot-users` (hash key `userId`). -/
def usersGet (users : UsersTable) (uid : String) : Option UserRec :=
  users.find? (fun r => r.userId = uid)

/-- DynamoDB `put_item` on `formbot-users`: replace the record with the same
key, or append (table keys are unique, so "the" record is the first
match). -/
def usersPut (users : UsersTable) (rec : UserRec) : UsersTable :=
  match users with
  | [] => [rec]
  | r :: tl => if r.userId = rec.userId then rec :: tl else r :: usersPut tl rec

/-- DynamoDB `get_item` on `formbot-profiles` (hash key `profileId`). -/
def profilesGet (profiles : ProfilesTable) (pid : String) : Option ProfileRec :=
  profiles.find? (fun r => r.profileId = pid)

/-- DynamoDB `put_item` on `formbot-profiles`. -/
def profilesPut (profiles : ProfilesTable) (rec : ProfileRec) : ProfilesTable :=
  match profiles with
  | [] => [rec]
  | p :: tl => if p.profileId = rec.profileId then rec :: tl else p :: profilesPut tl rec

/-! ## Request router (`lambda_handler`, lines 45–164)

The claims about routing concern which handler a (method, path) pair reaches,
not the handlers' results, so the router is modelled as a pure classification
function. -/

/-- The operation `lambda_handler` dispatches to. -/
inductive Route where
  | corsPreflight
  | userRegister
  | storeEmployeeData
  | getUserData
  | getProfiles
  | createProfile
  | updateProfile
  | sync
  | zapierWebhook
  | emailRegistration
  | fieldMapping
  | batchFieldMapping
  | documentUpload
  | saveDocument
  | getDocuments
  | getPresignedUrl
  | getDocument
  | deleteDocument
  | health
  | notFound
deriving DecidableEq, Repr

/-- Stage-prefix stripping (lines 62–70).  Faithful to the source: the
`/Prod/` branch drops 5 characters (`/Prod`), the `/Stage/` branch drops 7
(`/Stage/`, including the slash that should start the remaining path) and the
`/Dev/` branch drops 5 (`/Dev/`, likewise). -/
def stripStagePath (rawPath : String) : String :=
  if pyStartsWith rawPath "/Prod/" then pyDropChars rawPath 5
  else if pyStartsWith rawPath "/Stage/" then pyDropChars rawPath 7
  else if pyStartsWith rawPath "/Dev/" then pyDropChars rawPath 5
  else rawPath

/-- The routing table of `lambda_handler` (an OPTIONS request short-circuits
before path normalization). -/
def lambdaRoute (httpMethod : String) (rawPath : String) : Route :=
  if httpMethod = "OPTIONS" then .corsPreflight
  else
    let path := stripStagePath rawPath
    if path = "/api/user/register" ∧ httpMethod = "POST" then .userRegister
    else if path = "/api/user/data" ∧ httpMethod = "POST" then .storeEmployeeData
    else if path = "/api/user/data" ∧ httpMethod = "GET" then .getUserData
    else if path = "/api/profiles" ∧ httpMethod = "GET" then .getProfiles
    else if path = "/api/profiles" ∧ httpMethod = "POST" then .createProfile
    else if path = "/api/profiles" ∧ httpMethod = "PUT" then .updateProfile
    else if path = "/api/sync" ∧ httpMethod = "GET" then .sync
    else if path = "/api/webhook" ∧ httpMethod = "POST" then .zapierWebhook
    else if path = "/api/user/register-by-email" ∧ httpMethod = "POST" then .emailRegistration
    else if path = "/api/field-mapping" ∧ httpMethod = "POST" then .fieldMapping
    else if path = "/api/batch-field-mapping" ∧ httpMethod = "POST" then .batchFieldMapping
    else if path = "/api/documents/upload" ∧ httpMethod = "POST" then .documentUpload
    else if path = "/api/documents" ∧ httpMethod = "POST" then .saveDocument
    else if path = "/api/documents" ∧ httpMethod = "GET" then .getDocuments
    else if pyStartsWith path "/api/documents/" ∧ httpMethod = "GET" then
      if (path.splitOn "/").getLastD "" = "presigned-url" then .getPresignedUrl
      else .getDocument
    else if pyStartsWith path "/api/documents/" ∧ httpMethod = "DELETE" then .deleteDocument
    else if path = "/health" then .health
    else .notFound

/-! ## `handle_user_register` (lines 167–240)

Registers/updates a user after sign-in and creates the default profile for a
first-ever registration. -/

/-- The default profile written for a new user (lines 214–226). -/
def defaultProfile (user_id : JVal) (ts : Int) : ProfileRec :=
  { profileId := "default"
    userId := user_id
    label := "Default Profile"
    fields := .flat []
    source := "user"
    sourceId := none
    profileType := none
    isDefault := true
    createdAt := ts
    updatedAt := ts }

/-- `handle_user_register`.  `ts` is `int(time.time() * 1000)`.  Returns the
response together with the updated users and profiles tables.

A non-string `userId` value would make the DynamoDB `get_item`/`put_item`
calls raise (the table key has type `S`), which the handler's `except` turns
into a 400 with no write; this is the `.str` mismatch branch below.  A
non-string `email` value raises at `.lower()` with the same effect. -/
def handle_user_register (users : UsersTable) (profiles : ProfilesTable)
    (body : Payload) (ts : Int) : Response × UsersTable × ProfilesTable :=
  let user_id := dget body "userId"
  match dgetD body "email" (.str "") with
  | .str rawEmail =>
    let email := pyStrip (pyLower rawEmail)
    if ¬user_id.truthy ∨ email = "" then
      (create_response 400 [("error", .str "userId and email are required")], users, profiles)
    else
      match user_id with
      | .str uid =>
        let existing_user := usersGet users uid
        let is_new_user := existing_user.isNone
        let newRec : UserRec :=
          { userId := uid
            email := email
            displayName := dget body "name"
            profilePicture := dgetD body "picture" (.str "")
            createdAt := match existing_user with
                         | some e => e.createdAt
                         | none => ts
            lastLoginAt := ts
            orgId := match existing_user with
                     | some e => e.orgId
                     | none => .null
            settings := match existing_user with
                        | some e => e.settings
                        | none => .str "\x7b\x7d" }
        let users' := usersPut users newRec
        let profiles' :=
          if is_new_user then profilesPut profiles (defaultProfile user_id ts)
          else profiles
        (create_response 200
           [("success", .bool true),
            ("userId", user_id),
            ("isNewUser", .bool is_new_user),
            ("message", .str (if is_new_user then "User registered successfully"
                              else "User updated successfully"))],
         users', profiles')
      | _ =>
        (create_response 400 [("error", .str "Registration failed: invalid userId key")],
         users, profiles)
  | _ =>
    (create_response 400 [("error", .str "Registration failed: email is not a string")],
     users, profiles)

/-! ## `handle_zapier_webhook`: resolving the user (lines 710–820) -/

/-- Zapier metadata header chain (line 712):
`headers.get('X-Zapier-Zap-Id') or headers.get('X-Zap-Id') or
headers.get('X-Zapier-Webhook-Id')`, flattened to a string with `""` for a
falsy result (the code only ever tests the value's truthiness and
interpolates it into f-strings). -/
def zapIdOf (headers : Headers) : String :=
  (sor (hget headers "X-Zapier-Zap-Id")
    (sor (hget headers "X-Zap-Id") (hget headers "X-Zapier-Webhook-Id"))).getD ""

/-- Option 2 email chain over the payload (lines 726–732). -/
def emailChainBody (body : Payload) : JVal :=
  jor (dget body "email") (jor (dget body "Email") (jor (dget body "userEmail")
    (jor (dget body "googleUserEmail") (jor (dget body "zapierUserEmail")
      (dget body "sheetUserEmail")))))

/-- Option 3 email chain over the request headers (lines 779–782), already
lower-cased and stripped (header values are strings, so no exception here). -/
def emailFromHeaders (headers : Headers) : String :=
  pyStrip (pyLower ((sor (hget headers "X-Zapier-User-Email")
    (sor (hget headers "X-User-Email") (hget headers "X-Google-User-Email"))).getD ""))

/-- Option 4 google-account email chain over the payload (lines 797–801). -/
def googleEmailChain (body : Payload) : JVal :=
  jor (dget body "googleAccountEmail") (jor (dget body "googleEmail")
    (jor (dget body "accountEmail") (dget body "sheetsUserEmail")))

/-- `users_table.scan(FilterExpression=Attr('email').eq(email))`. -/
def scanUsersByEmail (users : UsersTable) (email : String) : List UserRec :=
  users.filter (fun r => r.email = email)

/-- The case-insensitive fallback scan (lines 746–750):
`item.get('email', '').lower().strip() == email` over the whole table. -/
def scanUsersByEmailCI (users : UsersTable) (email : String) : List UserRec :=
  users.filter (fun r => pyStrip (pyLower r.email) = email)

/-- Outcome of the user-resolution block of `handle_zapier_webhook`. -/
inductive WebhookUserResolution where
  | resolved (u : JVal)
  | notFound (email : String)
  | missing
  | pyError
deriving DecidableEq, Repr

/-- Lines 720–820: resolve the target user from the payload or headers.

* Option 1: a truthy `userId` field is used directly.
* Option 2: the body email chain; a non-empty email that matches no user
  (exactly, then case-insensitively) is a hard 404 (`notFound`).
* Option 3: email from Zapier headers; only an exact scan, and no match
  falls through (no 404).
* Option 4: google-account email keys in the body; likewise falls through.
* Otherwise `missing` (the 400 response).

A truthy non-string value in one of the email chains makes `.lower()` raise
(`pyError`, surfaced as a 500 by the handler's outer `except`). -/
def resolveWebhookUser (users : UsersTable) (body : Payload) (headers : Headers) :
    WebhookUserResolution :=
  let user_id := dget body "userId"
  if user_id.truthy then .resolved user_id
  else
    match pyLowerStrip (emailChainBody body) with
    | none => .pyError
    | some email =>
      if email ≠ "" then
        let items := scanUsersByEmail users email
        let items := if items.isEmpty then scanUsersByEmailCI users email else items
        match items with
        | item :: _ => .resolved (.str item.userId)
        | [] => .notFound email
      else
        let zapier_user_email := emailFromHeaders headers
        let fromHeaders :=
          if zapier_user_email ≠ "" then
            (scanUsersByEmail users zapier_user_email).head?
          else none
        match fromHeaders with
        | some item => .resolved (.str item.userId)
        | none =>
          match pyLowerStrip (googleEmailChain body) with
          | none => .pyError
          | some google_email =>
            if google_email ≠ "" then
              match (scanUsersByEmail users google_email).head? with
              | some item => .resolved (.str item.userId)
              | none => .missing
            else .missing

/-! ## `handle_zapier_webhook`: Google-Sheets detection (lines 828–859) -/

def rowNumberKeys : List String :=
  ["rownumber", "row_number", "row", "rowid", "row_id", "rowid", "rownum"]

def sheetIndicatorKeys : List String :=
  ["spreadsheetid", "sheetid", "sheet_id", "spreadsheet_id", "googlesheets",
   "sheetname", "spreadsheet", "worksheet", "sheetname"]

/-- Line 833: a lower-cased body key is a row indicator. -/
def has_row_number (body : Payload) : Bool :=
  (body.map (fun kv => pyLower kv.1)).any (fun k => rowNumberKeys.contains k)

/-- Line 835: a lower-cased body key is a sheet/spreadsheet identifier. -/
def has_sheet_indicators (body : Payload) : Bool :=
  (body.map (fun kv => pyLower kv.1)).any (fun k => sheetIndicatorKeys.contains k)

/-- Line 838: `body.get('source', '').lower()`.  `none` when the `source`
value is a truthy non-string (Python raises at `.lower()`); note the
difference from the email chains: here even a falsy non-string (`None`,
`0`, `False`) raises, since there is no `or ''` before `.lower()`. -/
def sourceLower (body : Payload) : Option String :=
  match body.lookup "source" with
  | none => some ""
  | some (.str s) => some (pyLower s)
  | some _ => none

/-- Line 839. -/
def sourceNamesSheets (src : String) : Bool :=
  ["google-sheets", "googlesheets", "sheets"].contains src

/-- Line 842: Zapier's numbered-column naming pattern over the original
keys. -/
def has_zapier_column_pattern (body : Payload) : Bool :=
  (body.map (fun kv => kv.1)).any
    (fun k => pyStartsWith k "1." || pyStartsWith k "2." || pyStartsWith k "3." ||
      pyStartsWith k "col_")

/-- Line 855: `body.get('employeeId') or body.get('id')`. -/
def employeeIdOf (body : Payload) : JVal :=
  jor (dget body "employeeId") (dget body "id")

/-- The effective payload-origin classification: `true` = Google-Sheets
style, `false` = CRM style, `none` = the `source` lookup raised.  This is the
value of `is_google_sheets` after line 859 (the initial OR of the four
signals at line 844, forced to `True` at line 859 whenever
`body.get('employeeId') or body.get('id')` is falsy). -/
def classifyWebhook (body : Payload) : Option Bool :=
  (sourceLower body).map (fun src =>
    let is_google_sheets :=
      has_row_number body || has_sheet_indicators body || sourceNamesSheets src ||
        has_zapier_column_pattern body
    is_google_sheets || !(employeeIdOf body).truthy)

/-! ## `handle_zapier_webhook`: profile merge (lines 854–1032) -/

/-- Lines 861–864: the spreadsheet/sheet identifier chain. -/
def sheetsIdChain (body : Payload) : JVal :=
  jor (dget body "spreadsheetId") (jor (dget body "spreadsheet_id")
    (jor (dget body "sheetId") (jor (dget body "sheet_id")
      (jor (dget body "spreadsheet") (dget body "worksheet")))))

/-- Lines 890–892: the `sourceId` chain for Google-Sheets data. -/
def sheetsSourceId (body : Payload) (zap_id : String) (user_id : JVal) : JVal :=
  jor (dget body "spreadsheetId") (jor (dget body "spreadsheet_id")
    (jor (dget body "sheetId")
      (jor (.str zap_id) (.str ("sheet_" ++ user_id.pyStr)))))

/-- Lines 893–898: profile name for Google-Sheets data: explicit `name`,
else `"{firstName} {lastName}".strip()`, else the fixed default. -/
def sheetsName (body : Payload) : String :=
  let name := dget body "name"
  if name.truthy then name.pyStr
  else
    let first_name := dgetD body "firstName" (.str "")
    let last_name := dgetD body "lastName" (.str "")
    let combined := pyStrip (first_name.pyStr ++ " " ++ last_name.pyStr)
    if combined ≠ "" then combined else "Google Sheets Data"

/-- Line 907. -/
def metadata_fields : List String :=
  ["userId", "employeeId", "id", "email", "spreadsheetId", "sheetId",
   "rowNumber", "row", "row_id"]

/-- Line 908: drop the metadata keys and every falsy value. -/
def stripMetadataFields (body : Payload) : Payload :=
  body.filter (fun kv => !(metadata_fields.contains kv.1) && kv.2.truthy)

/-- Lines 960–977: recover the row list from a stored `fields` payload.
`none` models the Python exceptions raised on a stored shape that is neither
a JSON object nor the row container (`.items()` on a non-dict, or indexing a
non-dict), which the handler's outer `except` turns into a 500. -/
def extractRows : StoredFields → Option (List (List (String × JVal)))
  | .rowsObj rs => some rs
  | .flat kvs =>
    match kvs.lookup "rows" with
    | some _ => some []
    | none =>
      let first_row := kvs.filter (fun kv => kv.1 ≠ "rows")
      some (if kvs.isEmpty then [] else if first_row.isEmpty then [] else [first_row])
  | .other => none

/-- Lines 979–982 and 996–997: the row-number chain of the current
delivery. -/
def rowNumberChain (body : Payload) : JVal :=
  jor (dget body "rowNumber") (jor (dget body "row_number")
    (jor (dget body "row") (dget body "row_id")))

/-- Lines 984–999: the row object appended for this delivery — the
metadata-stripped fields plus a `row` tag (`str(row_number)`, defaulting to
`row count + 1`; in the fresh-profile branch the literal default `'1'`
coincides with `0 + 1`). -/
def newRowOf (body : Payload) (priorRows : List (List (String × JVal))) :
    List (String × JVal) :=
  let rn := rowNumberChain body
  let rnStr := if rn.truthy then rn.pyStr else toString (priorRows.length + 1)
  stripMetadataFields body ++ [("row", .str rnStr)]

/-- `handle_zapier_webhook` (lines 666–1046).  Inputs: the two tables, the
request headers, the parsed JSON body and the timestamp
`int(time.time() * 1000)`.  Returns the response and the updated profiles
table (the handler never writes the users table).

The malformed-JSON 400 (lines 689–697) is outside this model, which takes an
already-parsed body; the empty-body 400 (lines 700–706) is the first branch.
500 responses stand for Python exceptions reaching the outer `except`; each
occurs before the single `put_item`, so the table is unchanged there. -/
def handle_zapier_webhook (users : UsersTable) (profiles : ProfilesTable)
    (headers : Headers) (body : Payload) (ts : Int) : Response × ProfilesTable :=
  if body.isEmpty then
    (create_response 400 [("error", .str "Empty request body")], profiles)
  else
    let zap_id := zapIdOf headers
    match resolveWebhookUser users body headers with
    | .pyError =>
      (create_response 500 [("error", .str "Internal server error")], profiles)
    | .notFound email =>
      (create_response 404
        [("error", .str "User not found"), ("received_email", .str email)], profiles)
    | .missing =>
      (create_response 400 [("error", .str "userId or email is required")], profiles)
    | .resolved user_id =>
      match classifyWebhook body with
      | none =>
        (create_response 500 [("error", .str "Internal server error")], profiles)
      | some is_google_sheets =>
        let profile_id :=
          if is_google_sheets then
            let spreadsheet_id := sheetsIdChain body
            if spreadsheet_id.truthy then "googlesheets_" ++ spreadsheet_id.pyStr
            else if zap_id ≠ "" then "googlesheets_zap_" ++ zap_id
            else "googlesheets_" ++ user_id.pyStr
          else
            "crm_" ++ user_id.pyStr
        let source := if is_google_sheets then "google-sheets" else "zapier"
        let profile_type : JVal :=
          if is_google_sheets then .str "google-sheets"
          else dgetD body "profileType" (.str "zapier")
        let source_id : JVal :=
          if is_google_sheets then sheetsSourceId body zap_id user_id
          else .str ("crm_" ++ user_id.pyStr)
        let name := if is_google_sheets then sheetsName body else "CRM Data"
        let existing_byId :=
          match profilesGet profiles profile_id with
          | some p => if p.userId = user_id then some p else none
          | none => none
        let found :=
          match existing_byId with
          | some p => (some p, profile_id)
          | none =>
            if source_id.truthy ∧ ¬is_google_sheets then
              match (profiles.filter
                  (fun (p : ProfileRec) =>
                    p.userId == user_id && p.sourceId == some source_id)).head? with
              | some p => (some p, p.profileId)
              | none => (none, profile_id)
            else (none, profile_id)
        let existing_profile := found.1
        let profile_id := found.2
        let label := if is_google_sheets then "Google Sheets: " ++ name
                     else "CRM: " ++ name
        let created_at := match existing_profile with
                          | some p => p.createdAt
                          | none => ts
        let rowsResult :=
          match existing_profile with
          | some p => extractRows p.fields
          | none => some []
        match rowsResult with
        | none =>
          (create_response 500 [("error", .str "Internal server error")], profiles)
        | some rows_array =>
          let rows' := rows_array ++ [newRowOf body rows_array]
          let newRec : ProfileRec :=
            { profileId := profile_id
              userId := user_id
              label := label
              fields := .rowsObj rows'
              source := source
              sourceId := some source_id
              profileType := some profile_type
              isDefault := false
              createdAt := created_at
              updatedAt := ts }
          let action := if existing_profile.isSome then "updated" else "created"
          (create_response 200
            [("success", .bool true),
             ("message", .str ("Profile " ++ action ++ " successfully")),
             ("profileId", .str profile_id),
             ("userId", user_id),
             ("label", .str label),
             -- line 1028: `len(profile_fields)` is measured after the rows
             -- repacking, when it is the single-key object `{"rows": ...}`
             ("fieldCount", .num 1),
             ("source", .str source),
             ("profileType", profile_type),
             ("action", .str action)],
           profilesPut profiles newRec)

/-! ## Field-mapping cache (`handle_get_field_mapping`,
`handle_post_field_mapping`)

The Redis cache is modelled explicitly.  The three key namespaces the code
uses — `field_mapping:{sig}` (a JSON document), `field_mapping_usage:{sig}`
(an INCR counter, never given a TTL) and `field_mapping_rate_limit:{ip}`
(an INCR counter with a 24h TTL) — are disjoint string prefixes, so they are
kept as three separate maps keyed by signature / IP.  `get_redis_client()`
is modelled as always succeeding (the 503 branch on an unreachable cache is
outside the claims).  Times are in seconds (`int(time.time())`); an entry
whose expiry time has been reached behaves as absent. -/

/-- `REDIS_TTL = 365 * 24 * 60 * 60` (line 22). -/
def REDIS_TTL : Int := 365 * 24 * 60 * 60

/-- The JSON document stored under `field_mapping:{sig}`.  `confidence` is
kept as the raw JSON value: the code stores whatever numeric value the body
or the completion service supplied, without coercion. -/
structure MappingData where
  matchedKey : JVal
  confidence : JVal
  usageCount : Int
  createdAt : Int
  updatedAt : Int
  fieldLabel : JVal
  fieldName : JVal
  source : Option String
deriving DecidableEq, Repr

structure RedisState where
  /-- `field_mapping:{sig}` → (document, absolute expiry time). -/
  mappings : List (String × MappingData × Int)
  /-- `field_mapping_usage:{sig}` counter (INCR only, no TTL). -/
  usage : List (String × Int)
  /-- `field_mapping_rate_limit:{ip}` → (counter, absolute expiry time). -/
  rateLimit : List (String × Int × Int)
deriving DecidableEq, Repr

/-- Replace-or-append for an association list keyed by strings (Redis `SET`
on an existing or fresh key). -/
def assocPut {α : Type} (l : List (String × α)) (k : String) (v : α) :
    List (String × α) :=
  match l with
  | [] => [(k, v)]
  | kv :: tl => if kv.1 = k then (k, v) :: tl else kv :: assocPut tl k v

/-- `redis.get('field_mapping:{sig}')` at time `now`. -/
def redisGetMapping (st : RedisState) (sig : String) (now : Int) :
    Option (MappingData × Int) :=
  match st.mappings.lookup sig with
  | some (d, exp) => if now < exp then some (d, exp) else none
  | none => none

/-- `redis.set('field_mapping:{sig}', ..., ex=REDIS_TTL)` at time `now`. -/
def redisSetMapping (st : RedisState) (sig : String) (d : MappingData) (now : Int) :
    RedisState :=
  { st with mappings := assocPut st.mappings sig (d, now + REDIS_TTL) }

/-- `redis.incr('field_mapping_usage:{sig}')`. -/
def redisIncrUsage (st : RedisState) (sig : String) : Int × RedisState :=
  let c := (st.usage.lookup sig).getD 0 + 1
  (c, { st with usage := assocPut st.usage sig c })

/-- `redis.incr` on the rate-limit key followed by the conditional
`expire(…, 24h)` (lines 1686–1690).  An expired counter restarts from 0. -/
def redisIncrRateLimit (st : RedisState) (ip : String) (now : Int) :
    Int × RedisState :=
  let prior : Option (Int × Int) :=
    match st.rateLimit.lookup ip with
    | some (c, exp) => if now < exp then some (c, exp) else none
    | none => none
  let c := (prior.map (fun p => p.1)).getD 0 + 1
  let exp := if c = 1 then now + 24 * 60 * 60
             else (prior.map (fun p => p.2)).getD now
  (c, { st with rateLimit := assocPut st.rateLimit ip (c, exp) })

/-- `handle_post_field_mapping` (lines 1641–1755): the explicit store call.
`ip` is `requestContext.identity.sourceIp`, `now` is `int(time.time())`.

A non-numeric `confidence` raises `TypeError` at the `< 80` comparison,
surfaced as a 500 with no cache write. -/
def handle_post_field_mapping (redis : RedisState) (now : Int) (ip : String)
    (body : Payload) : Response × RedisState :=
  let field_signature := dget body "fieldSignature"
  let matched_key := dget body "matchedKey"
  let field_label := dgetD body "fieldLabel" (.str "")
  let field_name := dgetD body "fieldName" (.str "")
  let confJ := dgetD body "confidence" (.num 0)
  if ¬field_signature.truthy ∨ ¬matched_key.truthy then
    (create_response 400 [("error", .str "fieldSignature and matchedKey required")], redis)
  else
    match asInt confJ with
    | none =>
      (create_response 500 [("error", .str "Internal server error")], redis)
    | some confidence =>
      if confidence < 80 then
        (create_response 200 [("message", .str "Low confidence match not stored")], redis)
      else
        let sig := field_signature.pyStr
        let (daily_writes, redis) := redisIncrRateLimit redis ip now
        if daily_writes > 100 then
          (create_response 429 [("error", .str "Rate limit exceeded")], redis)
        else
          match redisGetMapping redis sig now with
          | some (existing, _) =>
            let usage_count := redis.usage.lookup sig
            let updated : MappingData :=
              { existing with
                matchedKey := matched_key
                confidence := confJ
                updatedAt := now
                fieldLabel := field_label
                fieldName := field_name
                usageCount := match usage_count with
                              | some c => c
                              | none => existing.usageCount }
            (create_response 200
              [("success", .bool true), ("message", .str "Mapping stored"),
               ("fieldSignature", field_signature)],
             redisSetMapping redis sig updated now)
          | none =>
            let fresh : MappingData :=
              { matchedKey := matched_key
                confidence := confJ
                usageCount := 0
                createdAt := now
                updatedAt := now
                fieldLabel := field_label
                fieldName := field_name
                source := none }
            (create_response 200
              [("success", .bool true), ("message", .str "Mapping stored"),
               ("fieldSignature", field_signature)],
             redisSetMapping redis sig fresh now)

/-- The value `match_field_with_ai_backend` returns on the single-field
cache-miss path: `none` for a failed call, otherwise the (already validated)
`{'matchedKey': ..., 'confidence': ...}` dictionary.  The completion service
is external, so this is an input of the model. -/
structure AIMatch where
  matchedKey : JVal
  confidence : JVal
deriving DecidableEq, Repr

/-- `handle_get_field_mapping` (lines 1277–1442): the lookup call.
`remainingMs` is `context.get_remaining_time_in_millis()` when the runtime
provides it; `ai` is the completion-service outcome consulted only on a
cache miss with full field context.  The body's `availableKeys` entry is a
JSON list, which the scalar payload cannot carry, so it is passed alongside
as `availableKeys` (the handler only tests its truthiness — non-emptiness —
before handing it to the completion service, which is behind the `ai`
oracle). -/
def handle_get_field_mapping (redis : RedisState) (now : Int)
    (remainingMs : Option Int) (ai : Option AIMatch)
    (availableKeys : List String) (body : Payload) :
    Response × RedisState :=
  let field_signature := dget body "fieldSignature"
  if ¬field_signature.truthy then
    (create_response 400 [("error", .str "fieldSignature required in body")], redis)
  else
    let sig := field_signature.pyStr
    match redisGetMapping redis sig now with
    | some (mapping_data, _) =>
      let (usage_count, redis) := redisIncrUsage redis sig
      let updated := { mapping_data with usageCount := usage_count, updatedAt := now }
      (create_response 200
        [("matchedKey", updated.matchedKey),
         ("confidence", updated.confidence),
         ("usageCount", .num usage_count)],
       redisSetMapping redis sig updated now)
    | none =>
      let field_label := dgetD body "fieldLabel" (.str "")
      let openai_key := dgetD body "openAIKey" (.str "")
      if field_label.truthy ∧ ¬availableKeys.isEmpty ∧ openai_key.truthy then
        if (match remainingMs with
            | some r => decide (r < 5000)
            | none => false) then
          (create_response 504
            [("error", .str "Insufficient time remaining for AI matching")], redis)
        else
          match ai with
          | some m =>
            if m.matchedKey.truthy then
              let mapping_data : MappingData :=
                { matchedKey := m.matchedKey
                  confidence := m.confidence
                  usageCount := 0
                  createdAt := now
                  updatedAt := now
                  fieldLabel := field_label
                  fieldName := dgetD body "fieldName" (.str "")
                  source := some "ai" }
              (create_response 200
                [("matchedKey", m.matchedKey), ("confidence", m.confidence),
                 ("usageCount", .num 0), ("source", .str "ai"),
                 ("cached", .bool true)],
               redisSetMapping redis sig mapping_data now)
            else
              (create_response 404 [("error", .str "Mapping not found")], redis)
          | none =>
            (create_response 404 [("error", .str "Mapping not found")], redis)
      else
        (create_response 404 [("error", .str "Mapping not found")], redis)

/-! ## `match_fields_batch_backend` (lines 1835–2109)

The completion-service call is external; its observable outcome is an input
of the model.  `failure` covers a timeout, a transport error, empty returned
content and content that is not valid JSON — each of those paths returns
`{'mappings': []}` (lines 1976–1996, 2078–2103).  `parsed ms` is a
successfully parsed content object, with `ms = result.get('mappings', [])`.
The model's value is the `mappings` list the function returns; the
opportunistic Redis caching of confident matches (lines 2054–2074) does not
affect that list and is not modelled here.  The `fields` argument enters the
returned list only through its length (the index bound at line 2005 and the
fill-in loop at line 2042), passed as `n`. -/

/-- One element of a raw `possibleMatches` array.  `confidence` is the
value after `pm.get('confidence', 70)` (a non-numeric value would raise at
`min`/`max`, i.e. land in `failure`). -/
structure RawPossibleMatch where
  key : Option String
  confidence : Int
  reasoning : String
deriving DecidableEq, Repr

/-- One element of the raw `mappings` array returned by the completion
service.  `fieldIndex` is `none` for a missing/null index; `matchedKey` is
`none` for a missing/null key (a non-string key never occurs in
`available_keys` and behaves identically); `confidence` is the value after
`mapping.get('confidence', 0)`. -/
structure RawMapping where
  fieldIndex : Option Int
  matchedKey : Option String
  confidence : Int
  possibleMatches : List RawPossibleMatch
deriving DecidableEq, Repr

inductive AIBatchResult where
  | failure
  | parsed (mappings : List RawMapping)
deriving DecidableEq, Repr

/-- A validated possible match (lines 2008–2016). -/
structure VPossibleMatch where
  key : String
  confidence : Int
  reasoning : String
deriving DecidableEq, Repr

/-- A validated mapping entry (lines 2018–2049). -/
structure VMapping where
  fieldIndex : Int
  matchedKey : Option String
  confidence : Int
  possibleMatches : List VPossibleMatch
deriving DecidableEq, Repr

/-- Lines 2008–2016: validate the `possibleMatches` of one raw mapping
against the candidate key list, clamping confidence to [0, 95]. -/
def validatePossible (available_keys : List String)
    (pms : List RawPossibleMatch) : List VPossibleMatch :=
  pms.filterMap (fun pm =>
    match pm.key with
    | some k =>
      if k ≠ "" ∧ available_keys.contains k then
        some { key := k, confidence := min (max pm.confidence 0) 95,
               reasoning := pm.reasoning }
      else none
    | none => none)

/-- Lines 1998–2038: validation of one raw mapping.  A mapping whose
`fieldIndex` is missing or out of range is dropped; every surviving mapping
yields exactly one entry (matched / unmatched-with-confidence /
unmatched-zero). -/
def validateOne (n : Nat) (available_keys : List String) (m : RawMapping) :
    Option VMapping :=
  match m.fieldIndex with
  | none => none
  | some i =>
    if i < 0 ∨ (n : Int) ≤ i then none
    else
      -- `validated_possible` is computed once before the branch in the
      -- source; it is referentially transparent, so it is inlined here
      match m.matchedKey with
      | some k =>
        if k ≠ "" ∧ available_keys.contains k then
          some { fieldIndex := i, matchedKey := some k,
                 confidence := min (max m.confidence 0) 100,
                 possibleMatches := validatePossible available_keys m.possibleMatches }
        else if 0 < m.confidence then
          some { fieldIndex := i, matchedKey := none,
                 confidence := min (max m.confidence 0) 100,
                 possibleMatches := validatePossible available_keys m.possibleMatches }
        else
          some { fieldIndex := i, matchedKey := none, confidence := 0,
                 possibleMatches := [] }
      | none =>
        if 0 < m.confidence then
          some { fieldIndex := i, matchedKey := none,
                 confidence := min (max m.confidence 0) 100,
                 possibleMatches := validatePossible available_keys m.possibleMatches }
        else
          some { fieldIndex := i, matchedKey := none, confidence := 0,
                 possibleMatches := [] }

/-- The `validated_mappings` accumulation loop (lines 1998–2038). -/
def validateMappings (n : Nat) (available_keys : List String)
    (ms : List RawMapping) : List VMapping :=
  ms.filterMap (validateOne n available_keys)

/-- The synthesized entry for a field the completion service omitted
(lines 2044–2048). -/
def synthMapping (i : Int) : VMapping :=
  { fieldIndex := i, matchedKey := none, confidence := 0, possibleMatches := [] }

/-- Lines 2040–2049: append a synthesized entry for every input index absent
from the validated list, in increasing index order. -/
def fillMissing (n : Nat) (validated : List VMapping) : List VMapping :=
  let present := validated.map (fun m => m.fieldIndex)
  (List.range n).filterMap (fun (i : Nat) =>
    if present.contains (i : Int) then none else some (synthMapping (i : Int)))

/-- Stable insertion of one element into an accumulator already processed
(Python's `list.sort` is stable; an element is placed after every
already-seen element whose key is ≤ its own). -/
def insertByIndex (x : VMapping) : List VMapping → List VMapping
  | [] => [x]
  | y :: ys =>
    if y.fieldIndex ≤ x.fieldIndex then y :: insertByIndex x ys
    else x :: y :: ys

/-- Line 2052: `validated_mappings.sort(key=lambda x: x['fieldIndex'])` — a
stable sort by field index. -/
def sortByFieldIndex (l : List VMapping) : List VMapping :=
  l.foldl (fun acc x => insertByIndex x acc) []

/-- `match_fields_batch_backend`, as the `mappings` list of its return
value.  `n` is `len(fields)`. -/
def match_fields_batch_backend (n : Nat) (available_keys : List String)
    (ai : AIBatchResult) : List VMapping :=
  match ai with
  | .failure => []
  | .parsed ms =>
    let validated := validateMappings n available_keys ms
    sortByFieldIndex (validated ++ fillMissing n validated)

/-! ## Helper lemmas about the store models -/

theorem lookup_isEmpty_false {α : Type} {l : List (String × α)} {k : String} {v : α}
    (h : l.lookup k = some v) : l.isEmpty = false := by
  cases l with
  | nil => simp [List.lookup] at h
  | cons a tl => rfl

theorem mem_of_lookup {α : Type} {l : List (String × α)} {k : String} {v : α}
    (h : l.lookup k = some v) : (k, v) ∈ l := by
  induction l with
  | nil => simp [List.lookup] at h
  | cons a tl ih =>
    obtain ⟨k1, v1⟩ := a
    rw [List.lookup_cons] at h
    by_cases hk : k = k1
    · subst hk
      simp at h
      subst h
      exact List.mem_cons_self _ _
    · simp [beq_false_of_ne hk] at h
      exact List.mem_cons_of_mem _ (ih h)

theorem assocPut_lookup_self {α : Type} (l : List (String × α)) (k : String) (v : α) :
    (assocPut l k v).lookup k = some v := by
  induction l with
  | nil => simp [assocPut]
  | cons a tl ih =>
    obtain ⟨k1, v1⟩ := a
    rw [assocPut]
    by_cases hk : k1 = k
    · simp [hk, List.lookup_cons]
    · have hne : (k == k1) = false := by
        simp only [beq_eq_false_iff_ne, ne_eq]
        exact fun hh => hk hh.symm
      simp [hk, List.lookup_cons, hne, ih]

theorem assocPut_lookup_ne {α : Type} (l : List (String × α)) (k k' : String) (v : α)
    (h : k' ≠ k) : (assocPut l k v).lookup k' = l.lookup k' := by
  have hne : (k' == k) = false := by simpa [beq_eq_false_iff_ne] using h
  induction l with
  | nil => simp [assocPut, List.lookup_cons, hne]
  | cons a tl ih =>
    obtain ⟨k1, v1⟩ := a
    rw [assocPut]
    by_cases hk : k1 = k
    · subst hk
      simp [List.lookup_cons, hne]
    · by_cases hk' : k' = k1
      · simp [hk, List.lookup_cons, hk']
      · have hne' : (k' == k1) = false := by simpa [beq_eq_false_iff_ne] using hk'
        simp [hk, List.lookup_cons, hne', ih]

/-- `put_item` then `get_item` at the written key returns the written
record. -/
theorem profilesGet_put_self (l : ProfilesTable) (rec : ProfileRec) :
    profilesGet (profilesPut l rec) rec.profileId = some rec := by
  induction l with
  | nil => simp [profilesPut, profilesGet]
  | cons p tl ih =>
    rw [profilesPut]
    by_cases hp : p.profileId = rec.profileId
    · simp [hp, profilesGet]
    · simp only [hp, if_false]
      unfold profilesGet at ih ⊢
      rw [List.find?_cons_of_neg _ (by simpa using hp)]
      exact ih

theorem profilesGet_put_ne (l : ProfilesTable) (rec : ProfileRec) (pid : String)
    (h : pid ≠ rec.profileId) :
    profilesGet (profilesPut l rec) pid = profilesGet l pid := by
  have h' : ¬rec.profileId = pid := fun hh => h hh.symm
  induction l with
  | nil =>
    unfold profilesPut profilesGet
    rw [List.find?_cons_of_neg _ (by simpa using h')]
  | cons p tl ih =>
    rw [profilesPut]
    by_cases hp : p.profileId = rec.profileId
    · rw [if_pos hp]
      unfold profilesGet
      rw [List.find?_cons_of_neg _ (by simpa using h'),
        List.find?_cons_of_neg _ (by simpa [hp] using h')]
    · rw [if_neg hp]
      unfold profilesGet at ih ⊢
      by_cases hq : p.profileId = pid
      · rw [List.find?_cons_of_pos _ (by simpa using hq),
          List.find?_cons_of_pos _ (by simpa using hq)]
      · rw [List.find?_cons_of_neg _ (by simpa using hq),
          List.find?_cons_of_neg _ (by simpa using hq)]
        exact ih

/-- Replacing an existing key leaves the key sequence of the table
unchanged (no new record is created). -/
theorem profilesPut_map_profileId (l : ProfilesTable) (rec : ProfileRec)
    (h : ∃ q, profilesGet l rec.profileId = some q) :
    (profilesPut l rec).map (fun p => p.profileId) = l.map (fun p => p.profileId) := by
  induction l with
  | nil => simp [profilesGet] at h
  | cons p tl ih =>
    rw [profilesPut]
    by_cases hp : p.profileId = rec.profileId
    · simp [hp]
    · simp only [hp, if_false, List.map_cons, List.cons.injEq, true_and]
      apply ih
      obtain ⟨q, h⟩ := h
      refine ⟨q, ?_⟩
      unfold profilesGet at h
      rw [List.find?_cons_of_neg _ (by simpa using hp)] at h
      exact h

theorem jor_of_truthy {a : JVal} (b : JVal) (h : a.truthy = true) : jor a b = a := by
  simp [jor, h]

theorem dget_eq_of_lookup {body : Payload} {k : String} {v : JVal}
    (h : body.lookup k = some v) : dget body k = v := by
  simp [dget, h]

theorem str_truthy_of_ne {s : String} (h : s ≠ "") : (JVal.str s).truthy = true := by
  simp [JVal.truthy, h]

/-- A payload carrying a `spreadsheetId` key triggers the sheet-indicator
signal (its lower-cased key is in the indicator list). -/
theorem has_sheet_indicators_of_spreadsheetId {body : Payload} {v : JVal}
    (h : body.lookup "spreadsheetId" = some v) : has_sheet_indicators body = true := by
  have hmem := mem_of_lookup h
  unfold has_sheet_indicators
  rw [List.any_eq_true]
  refine ⟨"spreadsheetid", ?_, by decide⟩
  rw [List.mem_map]
  refine ⟨("spreadsheetId", v), hmem, ?_⟩
  rfl

/-- A payload carrying a `spreadsheetId` key classifies as Google-Sheets
style (provided the `source` lookup does not raise). -/
theorem classify_sheets_of_spreadsheetId {body : Payload} {v : JVal} {src : String}
    (h : body.lookup "spreadsheetId" = some v) (hsrc : sourceLower body = some src) :
    classifyWebhook body = some true := by
  unfold classifyWebhook
  rw [hsrc]
  simp [has_sheet_indicators_of_spreadsheetId h]

theorem usersGet_put_self (l : UsersTable) (rec : UserRec) :
    usersGet (usersPut l rec) rec.userId = some rec := by
  induction l with
  | nil => simp [usersPut, usersGet]
  | cons r tl ih =>
    rw [usersPut]
    by_cases hr : r.userId = rec.userId
    · simp [hr, usersGet]
    · simp only [hr, if_false]
      unfold usersGet at ih ⊢
      rw [List.find?_cons_of_neg _ (by simpa using hr)]
      exact ih

/-! ## Characterizations of the webhook merge paths -/

/-- The profile record the sheets path writes when no merge candidate
survives (fresh or ownership-invalidated). -/
def sheetsFreshRec (body : Payload) (headers : Headers) (u : JVal) (s : String)
    (ts : Int) : ProfileRec :=
  { profileId := "googlesheets_" ++ s
    userId := u
    label := "Google Sheets: " ++ sheetsName body
    fields := .rowsObj [newRowOf body []]
    source := "google-sheets"
    sourceId := some (sheetsSourceId body (zapIdOf headers) u)
    profileType := some (.str "google-sheets")
    isDefault := false
    createdAt := ts
    updatedAt := ts }

/-- The sheets-path response. -/
def sheetsResponse (body : Payload) (u : JVal) (s : String) (action : String) :
    Response :=
  create_response 200
    [("success", .bool true),
     ("message", .str ("Profile " ++ action ++ " successfully")),
     ("profileId", .str ("googlesheets_" ++ s)),
     ("userId", u),
     ("label", .str ("Google Sheets: " ++ sheetsName body)),
     ("fieldCount", .num 1),
     ("source", .str "google-sheets"),
     ("profileType", .str "google-sheets"),
     ("action", .str action)]

/-- Google-Sheets path, no stored profile under the derived id: a fresh
single-row record is written under `googlesheets_{spreadsheetId}`. -/
theorem webhook_sheets_fresh
    (users : UsersTable) (profiles : ProfilesTable) (headers : Headers)
    (body : Payload) (ts : Int) (u : JVal) (s : String) (src : String)
    (hres : resolveWebhookUser users body headers = .resolved u)
    (hsid : body.lookup "spreadsheetId" = some (.str s)) (hs : s ≠ "")
    (hsrc : sourceLower body = some src)
    (hfresh : profilesGet profiles ("googlesheets_" ++ s) = none) :
    handle_zapier_webhook users profiles headers body ts =
      (sheetsResponse body u s "created",
       profilesPut profiles (sheetsFreshRec body headers u s ts)) := by
  have hne : body.isEmpty = false := lookup_isEmpty_false hsid
  have hclass : classifyWebhook body = some true :=
    classify_sheets_of_spreadsheetId hsid hsrc
  have hchain : sheetsIdChain body = .str s := by
    unfold sheetsIdChain
    rw [dget_eq_of_lookup hsid, jor_of_truthy _ (str_truthy_of_ne hs)]
  unfold handle_zapier_webhook
  rw [hne]
  simp only [Bool.false_eq_true, if_false, hres, hclass, hchain, JVal.pyStr,
    str_truthy_of_ne hs, if_true, hfresh, not_true, and_false, if_false,
    Option.isSome_none, extractRows]
  rfl

/-- Google-Sheets path, a stored profile under the derived id owned by the
resolved user with a parseable row list: the new row is appended and the
creation timestamp preserved. -/
theorem webhook_sheets_append
    (users : UsersTable) (profiles : ProfilesTable) (headers : Headers)
    (body : Payload) (ts : Int) (u : JVal) (s : String) (src : String)
    (p : ProfileRec) (rows : List (List (String × JVal)))
    (hres : resolveWebhookUser users body headers = .resolved u)
    (hsid : body.lookup "spreadsheetId" = some (.str s)) (hs : s ≠ "")
    (hsrc : sourceLower body = some src)
    (hexist : profilesGet profiles ("googlesheets_" ++ s) = some p)
    (howner : p.userId = u)
    (hrows : extractRows p.fields = some rows) :
    handle_zapier_webhook users profiles headers body ts =
      (sheetsResponse body u s "updated",
       profilesPut profiles
         { sheetsFreshRec body headers u s ts with
           fields := .rowsObj (rows ++ [newRowOf body rows])
           createdAt := p.createdAt }) := by
  have hne : body.isEmpty = false := lookup_isEmpty_false hsid
  have hclass : classifyWebhook body = some true :=
    classify_sheets_of_spreadsheetId hsid hsrc
  have hchain : sheetsIdChain body = .str s := by
    unfold sheetsIdChain
    rw [dget_eq_of_lookup hsid, jor_of_truthy _ (str_truthy_of_ne hs)]
  unfold handle_zapier_webhook
  rw [hne]
  simp only [Bool.false_eq_true, if_false, hres, hclass, hchain, JVal.pyStr,
    str_truthy_of_ne hs, if_true, hexist, howner, if_pos rfl, hrows]
  rfl

/-- Google-Sheets path, a stored profile under the derived id owned by a
different user: the candidate is invalidated and a fresh single-row record
replaces it under the same id. -/
theorem webhook_sheets_overwrite
    (users : UsersTable) (profiles : ProfilesTable) (headers : Headers)
    (body : Payload) (ts : Int) (u : JVal) (s : String) (src : String)
    (p : ProfileRec)
    (hres : resolveWebhookUser users body headers = .resolved u)
    (hsid : body.lookup "spreadsheetId" = some (.str s)) (hs : s ≠ "")
    (hsrc : sourceLower body = some src)
    (hexist : profilesGet profiles ("googlesheets_" ++ s) = some p)
    (howner : p.userId ≠ u) :
    handle_zapier_webhook users profiles headers body ts =
      (sheetsResponse body u s "created",
       profilesPut profiles (sheetsFreshRec body headers u s ts)) := by
  have hne : body.isEmpty = false := lookup_isEmpty_false hsid
  have hclass : classifyWebhook body = some true :=
    classify_sheets_of_spreadsheetId hsid hsrc
  have hchain : sheetsIdChain body = .str s := by
    unfold sheetsIdChain
    rw [dget_eq_of_lookup hsid, jor_of_truthy _ (str_truthy_of_ne hs)]
  unfold handle_zapier_webhook
  rw [hne]
  simp only [Bool.false_eq_true, if_false, hres, hclass, hchain, JVal.pyStr,
    str_truthy_of_ne hs, if_true, hexist, if_neg howner, not_true, and_false,
    if_false, extractRows]
  rfl

/-- A CRM-classified payload is non-empty (an empty payload has no truthy
`employeeId`/`id` and therefore classifies as sheets). -/
theorem isEmpty_false_of_classify_crm {body : Payload}
    (h : classifyWebhook body = some false) : body.isEmpty = false := by
  cases body with
  | nil => simp [classifyWebhook, sourceLower, employeeIdOf, dget, jor, JVal.truthy,
      has_row_number, has_sheet_indicators, sourceNamesSheets,
      has_zapier_column_pattern, List.lookup] at h
  | cons a tl => rfl

theorem crm_str_truthy (t : String) : (JVal.str ("crm_" ++ t)).truthy = true := by
  simp only [JVal.truthy, ne_eq, decide_eq_true_eq]
  intro h
  have := congrArg String.data h
  simp [String.data_append] at this

/-- The profile record the CRM path writes when no merge candidate is
found. -/
def crmFreshRec (body : Payload) (u : JVal) (ts : Int) : ProfileRec :=
  { profileId := "crm_" ++ u.pyStr
    userId := u
    label := "CRM: CRM Data"
    fields := .rowsObj [newRowOf body []]
    source := "zapier"
    sourceId := some (.str ("crm_" ++ u.pyStr))
    profileType := some (dgetD body "profileType" (.str "zapier"))
    isDefault := false
    createdAt := ts
    updatedAt := ts }

/-- The CRM-path response. -/
def crmResponse (body : Payload) (u : JVal) (action : String) : Response :=
  create_response 200
    [("success", .bool true),
     ("message", .str ("Profile " ++ action ++ " successfully")),
     ("profileId", .str ("crm_" ++ u.pyStr)),
     ("userId", u),
     ("label", .str "CRM: CRM Data"),
     ("fieldCount", .num 1),
     ("source", .str "zapier"),
     ("profileType", dgetD body "profileType" (.str "zapier")),
     ("action", .str action)]

/-- CRM path, no stored profile under `crm_{userId}` and no profile of this
user with the CRM `sourceId`: a fresh single-row record is created. -/
theorem webhook_crm_fresh
    (users : UsersTable) (profiles : ProfilesTable) (headers : Headers)
    (body : Payload) (ts : Int) (u : JVal)
    (hres : resolveWebhookUser users body headers = .resolved u)
    (hclass : classifyWebhook body = some false)
    (hget : profilesGet profiles ("crm_" ++ u.pyStr) = none)
    (hscan : profiles.filter
      (fun (p : ProfileRec) =>
        p.userId == u && p.sourceId == some (.str ("crm_" ++ u.pyStr))) = []) :
    handle_zapier_webhook users profiles headers body ts =
      (crmResponse body u "created", profilesPut profiles (crmFreshRec body u ts)) := by
  have hne : body.isEmpty = false := isEmpty_false_of_classify_crm hclass
  unfold handle_zapier_webhook
  rw [hne]
  simp only [Bool.false_eq_true, if_false, hres, hclass, Bool.false_eq_true,
    if_false, hget, crm_str_truthy, not_false_iff, and_true, if_true, hscan,
    List.head?_nil, extractRows]
  rfl

/-- CRM path, a stored profile under `crm_{userId}` owned by the resolved
user with a parseable row list: the new row is appended. -/
theorem webhook_crm_append
    (users : UsersTable) (profiles : ProfilesTable) (headers : Headers)
    (body : Payload) (ts : Int) (u : JVal)
    (p : ProfileRec) (rows : List (List (String × JVal)))
    (hres : resolveWebhookUser users body headers = .resolved u)
    (hclass : classifyWebhook body = some false)
    (hget : profilesGet profiles ("crm_" ++ u.pyStr) = some p)
    (howner : p.userId = u)
    (hrows : extractRows p.fields = some rows) :
    handle_zapier_webhook users profiles headers body ts =
      (crmResponse body u "updated",
       profilesPut profiles
         { crmFreshRec body u ts with
           fields := .rowsObj (rows ++ [newRowOf body rows])
           createdAt := p.createdAt }) := by
  have hne : body.isEmpty = false := isEmpty_false_of_classify_crm hclass
  unfold handle_zapier_webhook
  rw [hne]
  simp only [Bool.false_eq_true, if_false, hres, hclass, hget, howner,
    eq_self_iff_true, if_true, hrows]
  rfl

/-! ## Characterizations of `handle_user_register` -/

/-- The user record one register call writes (lines 198–209). -/
def registerRec (body : Payload) (ts : Int) (uid em : String)
    (existing : Option UserRec) : UserRec :=
  { userId := uid
    email := pyStrip (pyLower em)
    displayName := dget body "name"
    profilePicture := dgetD body "picture" (.str "")
    createdAt := match existing with
                 | some e => e.createdAt
                 | none => ts
    lastLoginAt := ts
    orgId := match existing with
             | some e => e.orgId
             | none => .null
    settings := match existing with
                | some e => e.settings
                | none => .str "\x7b\x7d" }

def registerResponse (uid : String) (is_new : Bool) : Response :=
  create_response 200
    [("success", .bool true), ("userId", .str uid),
     ("isNewUser", .bool is_new),
     ("message", .str (if is_new then "User registered successfully"
                       else "User updated successfully"))]

theorem register_existing
    (users : UsersTable) (profiles : ProfilesTable) (body : Payload) (ts : Int)
    (uid em : String) (e : UserRec)
    (huid : body.lookup "userId" = some (.str uid)) (hu : uid ≠ "")
    (hem : body.lookup "email" = some (.str em))
    (he : pyStrip (pyLower em) ≠ "")
    (hex : usersGet users uid = some e) :
    handle_user_register users profiles body ts =
      (registerResponse uid false,
       usersPut users (registerRec body ts uid em (some e)),
       profiles) := by
  have h1 : dgetD body "email" (.str "") = .str em := by simp [dgetD, hem]
  have h2 : dget body "userId" = .str uid := dget_eq_of_lookup huid
  have hcond : ¬(¬(JVal.str uid).truthy = true ∨ pyStrip (pyLower em) = "") := by
    simp [str_truthy_of_ne hu, he]
  unfold handle_user_register
  simp only [h1, h2, hcond, if_false, hex, Option.isNone_some, Bool.false_eq_true,
    eq_self_iff_true, if_true, if_neg hcond]
  rfl

theorem register_new
    (users : UsersTable) (profiles : ProfilesTable) (body : Payload) (ts : Int)
    (uid em : String)
    (huid : body.lookup "userId" = some (.str uid)) (hu : uid ≠ "")
    (hem : body.lookup "email" = some (.str em))
    (he : pyStrip (pyLower em) ≠ "")
    (hex : usersGet users uid = none) :
    handle_user_register users profiles body ts =
      (registerResponse uid true,
       usersPut users (registerRec body ts uid em none),
       profilesPut profiles (defaultProfile (.str uid) ts)) := by
  have h1 : dgetD body "email" (.str "") = .str em := by simp [dgetD, hem]
  have h2 : dget body "userId" = .str uid := dget_eq_of_lookup huid
  have hcond : ¬(¬(JVal.str uid).truthy = true ∨ pyStrip (pyLower em) = "") := by
    simp [str_truthy_of_ne hu, he]
  unfold handle_user_register
  simp only [h1, h2, hcond, if_false, hex, Option.isNone_none, Bool.false_eq_true,
    eq_self_iff_true, if_true, if_neg hcond]
  rfl

/-! ## Claim theorems -/

/-- C9 (code bug): the router's stage-prefix stripping is off by one for
`/Stage/` and `/Dev/` — it also drops the slash that should begin the
remaining path (`'/Stage/api/profiles'[7:] = 'api/profiles'`), so every
stage-prefixed request under those two prefixes falls through to the
not-found branch instead of reaching the handler of the unprefixed path;
only the `/Prod/` prefix routes as the claim describes. -/
theorem C9_stage_prefix_stripping_bug :
    stripStagePath "/Stage/api/profiles" = "api/profiles" ∧
    lambdaRoute "GET" "/Stage/api/profiles" = .notFound ∧
    stripStagePath "/Dev/api/profiles" = "api/profiles" ∧
    lambdaRoute "GET" "/Dev/api/profiles" = .notFound ∧
    lambdaRoute "GET" "/api/profiles" = .getProfiles ∧
    lambdaRoute "GET" "/Prod/api/profiles" = .getProfiles ∧
    lambdaRoute "PATCH" "/api/profiles" = .notFound := by
  decide

/-- C2: registering the same user id a second time creates no second default
profile (the profiles table is left untouched by the second call), reports
`isNewUser = false`, and the upsert preserves the user record's creation
timestamp and organization id. -/
theorem C2_register_idempotent
    (users : UsersTable) (profiles : ProfilesTable)
    (body₁ body₂ : Payload) (t₁ t₂ : Int) (uid em₁ em₂ : String)
    (huid₁ : body₁.lookup "userId" = some (.str uid))
    (huid₂ : body₂.lookup "userId" = some (.str uid))
    (hu : uid ≠ "")
    (hem₁ : body₁.lookup "email" = some (.str em₁))
    (hem₂ : body₂.lookup "email" = some (.str em₂))
    (he₁ : pyStrip (pyLower em₁) ≠ "")
    (he₂ : pyStrip (pyLower em₂) ≠ "") :
    (handle_user_register
        (handle_user_register users profiles body₁ t₁).2.1
        (handle_user_register users profiles body₁ t₁).2.2
        body₂ t₂).1.field "isNewUser" = some (.bool false) ∧
    (handle_user_register
        (handle_user_register users profiles body₁ t₁).2.1
        (handle_user_register users profiles body₁ t₁).2.2
        body₂ t₂).2.2 = (handle_user_register users profiles body₁ t₁).2.2 ∧
    (∃ r₁ r₂ : UserRec,
      usersGet (handle_user_register users profiles body₁ t₁).2.1 uid = some r₁ ∧
      usersGet (handle_user_register
          (handle_user_register users profiles body₁ t₁).2.1
          (handle_user_register users profiles body₁ t₁).2.2
          body₂ t₂).2.1 uid = some r₂ ∧
      r₂.createdAt = r₁.createdAt ∧ r₂.orgId = r₁.orgId) := by
  have step₂ :
      ∀ (rec₁ : UserRec) (profiles₁ : ProfilesTable), rec₁.userId = uid →
        handle_user_register (usersPut users rec₁) profiles₁ body₂ t₂ =
          (registerResponse uid false,
           usersPut (usersPut users rec₁) (registerRec body₂ t₂ uid em₂ (some rec₁)),
           profiles₁) := by
    intro rec₁ profiles₁ hrec
    exact register_existing _ _ _ _ _ _ _ huid₂ hu hem₂ he₂
      (by rw [← hrec]; exact usersGet_put_self users rec₁)
  cases hex : usersGet users uid with
  | some e =>
    rw [register_existing users profiles body₁ t₁ uid em₁ e huid₁ hu hem₁ he₁ hex]
    rw [show (registerResponse uid false, usersPut users (registerRec body₁ t₁ uid em₁ (some e)),
        profiles).2.1 = usersPut users (registerRec body₁ t₁ uid em₁ (some e)) from rfl]
    rw [step₂ (registerRec body₁ t₁ uid em₁ (some e)) _ rfl]
    exact ⟨rfl, rfl,
      registerRec body₁ t₁ uid em₁ (some e),
      registerRec body₂ t₂ uid em₂ (some (registerRec body₁ t₁ uid em₁ (some e))),
      usersGet_put_self users _, usersGet_put_self _ _, rfl, rfl⟩
  | none =>
    rw [register_new users profiles body₁ t₁ uid em₁ huid₁ hu hem₁ he₁ hex]
    rw [show (registerResponse uid true, usersPut users (registerRec body₁ t₁ uid em₁ none),
        profilesPut profiles (defaultProfile (.str uid) t₁)).2.1 =
        usersPut users (registerRec body₁ t₁ uid em₁ none) from rfl]
    rw [step₂ (registerRec body₁ t₁ uid em₁ none) _ rfl]
    exact ⟨rfl, rfl,
      registerRec body₁ t₁ uid em₁ none,
      registerRec body₂ t₂ uid em₂ (some (registerRec body₁ t₁ uid em₁ none)),
      usersGet_put_self users _, usersGet_put_self _ _, rfl, rfl⟩

/-- Witness for C2 at a concrete input. -/
theorem C2_register_idempotent_witness :
    (handle_user_register
        (handle_user_register [] [] [("userId", .str "g1"), ("email", .str "Jane@X.com")] 100).2.1
        (handle_user_register [] [] [("userId", .str "g1"), ("email", .str "Jane@X.com")] 100).2.2
        [("userId", .str "g1"), ("email", .str "jane@x.com")] 200).1.field "isNewUser" =
      some (.bool false) ∧
    (handle_user_register
        (handle_user_register [] [] [("userId", .str "g1"), ("email", .str "Jane@X.com")] 100).2.1
        (handle_user_register [] [] [("userId", .str "g1"), ("email", .str "Jane@X.com")] 100).2.2
        [("userId", .str "g1"), ("email", .str "jane@x.com")] 200).2.2 =
      (handle_user_register [] [] [("userId", .str "g1"), ("email", .str "Jane@X.com")] 100).2.2 ∧
    (∃ r₁ r₂ : UserRec,
      usersGet (handle_user_register [] []
          [("userId", .str "g1"), ("email", .str "Jane@X.com")] 100).2.1 "g1" = some r₁ ∧
      usersGet (handle_user_register
          (handle_user_register [] [] [("userId", .str "g1"), ("email", .str "Jane@X.com")] 100).2.1
          (handle_user_register [] [] [("userId", .str "g1"), ("email", .str "Jane@X.com")] 100).2.2
          [("userId", .str "g1"), ("email", .str "jane@x.com")] 200).2.1 "g1" = some r₂ ∧
      r₂.createdAt = r₁.createdAt ∧ r₂.orgId = r₁.orgId) :=
  C2_register_idempotent [] [] _ _ 100 200 "g1" "Jane@X.com" "jane@x.com"
    (by decide) (by decide) (by decide) (by decide) (by decide) (by decide) (by decide)

/-- C1: two webhook deliveries carrying the same (non-empty) spreadsheet
identifier, resolved to the same user, derive the same profile id
`googlesheets_{spreadsheetId}` on both calls; after the second delivery the
single profile stored under that id holds both deliveries' metadata-stripped
field sets as separate `row`-tagged entries, in delivery order, and the
second delivery adds no record to the profile table. -/
theorem C1_same_sheet_accumulates_rows
    (users : UsersTable) (profiles₀ : ProfilesTable)
    (headers₁ headers₂ : Headers) (p₁ p₂ : Payload) (t₁ t₂ : Int)
    (u : JVal) (s : String) (src₁ src₂ : String)
    (hres₁ : resolveWebhookUser users p₁ headers₁ = .resolved u)
    (hres₂ : resolveWebhookUser users p₂ headers₂ = .resolved u)
    (hsid₁ : p₁.lookup "spreadsheetId" = some (.str s))
    (hsid₂ : p₂.lookup "spreadsheetId" = some (.str s))
    (hs : s ≠ "")
    (hsrc₁ : sourceLower p₁ = some src₁)
    (hsrc₂ : sourceLower p₂ = some src₂)
    (hfresh : profilesGet profiles₀ ("googlesheets_" ++ s) = none) :
    (handle_zapier_webhook users profiles₀ headers₁ p₁ t₁).1.field "profileId" =
        some (.str ("googlesheets_" ++ s)) ∧
    (handle_zapier_webhook users (handle_zapier_webhook users profiles₀ headers₁ p₁ t₁).2
        headers₂ p₂ t₂).1.field "profileId" = some (.str ("googlesheets_" ++ s)) ∧
    (∃ rec rn₁ rn₂,
      profilesGet (handle_zapier_webhook users
          (handle_zapier_webhook users profiles₀ headers₁ p₁ t₁).2 headers₂ p₂ t₂).2
          ("googlesheets_" ++ s) = some rec ∧
      rec.userId = u ∧
      rec.fields = .rowsObj
        [stripMetadataFields p₁ ++ [("row", rn₁)],
         stripMetadataFields p₂ ++ [("row", rn₂)]]) ∧
    (handle_zapier_webhook users (handle_zapier_webhook users profiles₀ headers₁ p₁ t₁).2
        headers₂ p₂ t₂).2.map (fun p => p.profileId) =
      (handle_zapier_webhook users profiles₀ headers₁ p₁ t₁).2.map (fun p => p.profileId) := by
  rw [webhook_sheets_fresh users profiles₀ headers₁ p₁ t₁ u s src₁
    hres₁ hsid₁ hs hsrc₁ hfresh]
  rw [show (sheetsResponse p₁ u s "created",
      profilesPut profiles₀ (sheetsFreshRec p₁ headers₁ u s t₁)).2 =
      profilesPut profiles₀ (sheetsFreshRec p₁ headers₁ u s t₁) from rfl]
  have hex₂ : profilesGet (profilesPut profiles₀ (sheetsFreshRec p₁ headers₁ u s t₁))
      ("googlesheets_" ++ s) = some (sheetsFreshRec p₁ headers₁ u s t₁) :=
    profilesGet_put_self profiles₀ _
  rw [webhook_sheets_append users _ headers₂ p₂ t₂ u s src₂
    (sheetsFreshRec p₁ headers₁ u s t₁) [newRowOf p₁ []]
    hres₂ hsid₂ hs hsrc₂ hex₂ rfl rfl]
  refine ⟨rfl, rfl, ⟨_, _, _, profilesGet_put_self _ _, rfl, rfl⟩, ?_⟩
  exact profilesPut_map_profileId _ _ ⟨_, hex₂⟩

/-- Witness for C1 at a concrete pair of deliveries. -/
theorem C1_same_sheet_accumulates_rows_witness :
    (handle_zapier_webhook
        [⟨"g1", "jane@x.com", .str "Jane", .str "", 5, 5, .null, .null⟩] [] []
        [("userId", .str "g1"), ("spreadsheetId", .str "S1"), ("col_a", .str "v1")] 1000).1.field
        "profileId" = some (.str ("googlesheets_" ++ "S1")) ∧
    (handle_zapier_webhook [⟨"g1", "jane@x.com", .str "Jane", .str "", 5, 5, .null, .null⟩]
        (handle_zapier_webhook
          [⟨"g1", "jane@x.com", .str "Jane", .str "", 5, 5, .null, .null⟩] [] []
          [("userId", .str "g1"), ("spreadsheetId", .str "S1"), ("col_a", .str "v1")] 1000).2 []
        [("userId", .str "g1"), ("spreadsheetId", .str "S1"), ("col_a", .str "v2")] 2000).1.field
        "profileId" = some (.str ("googlesheets_" ++ "S1")) ∧
    (∃ rec rn₁ rn₂,
      profilesGet (handle_zapier_webhook
          [⟨"g1", "jane@x.com", .str "Jane", .str "", 5, 5, .null, .null⟩]
          (handle_zapier_webhook
            [⟨"g1", "jane@x.com", .str "Jane", .str "", 5, 5, .null, .null⟩] [] []
            [("userId", .str "g1"), ("spreadsheetId", .str "S1"), ("col_a", .str "v1")] 1000).2 []
          [("userId", .str "g1"), ("spreadsheetId", .str "S1"), ("col_a", .str "v2")] 2000).2
          ("googlesheets_" ++ "S1") = some rec ∧
      rec.userId = .str "g1" ∧
      rec.fields = .rowsObj
        [stripMetadataFields [("userId", .str "g1"), ("spreadsheetId", .str "S1"),
           ("col_a", .str "v1")] ++ [("row", rn₁)],
         stripMetadataFields [("userId", .str "g1"), ("spreadsheetId", .str "S1"),
           ("col_a", .str "v2")] ++ [("row", rn₂)]]) ∧
    (handle_zapier_webhook [⟨"g1", "jane@x.com", .str "Jane", .str "", 5, 5, .null, .null⟩]
        (handle_zapier_webhook
          [⟨"g1", "jane@x.com", .str "Jane", .str "", 5, 5, .null, .null⟩] [] []
          [("userId", .str "g1"), ("spreadsheetId", .str "S1"), ("col_a", .str "v1")] 1000).2 []
        [("userId", .str "g1"), ("spreadsheetId", .str "S1"), ("col_a", .str "v2")] 2000).2.map
      (fun p => p.profileId) =
      (handle_zapier_webhook
        [⟨"g1", "jane@x.com", .str "Jane", .str "", 5, 5, .null, .null⟩] [] []
        [("userId", .str "g1"), ("spreadsheetId", .str "S1"), ("col_a", .str "v1")] 1000).2.map
      (fun p => p.profileId) :=
  C1_same_sheet_accumulates_rows
    [⟨"g1", "jane@x.com", .str "Jane", .str "", 5, 5, .null, .null⟩] [] [] []
    [("userId", .str "g1"), ("spreadsheetId", .str "S1"), ("col_a", .str "v1")]
    [("userId", .str "g1"), ("spreadsheetId", .str "S1"), ("col_a", .str "v2")]
    1000 2000 (.str "g1") "S1" "" ""
    (by decide) (by decide) (by decide) (by decide) (by decide)
    (by decide) (by decide) (by decide)

/-- C5: two CRM-classified webhook deliveries resolved to the same user both
derive the single fixed per-user profile id `crm_{userId}` — whatever
employee/record identifiers the payloads carry — so starting from a state
with no CRM profile for that user, the second delivery updates the record
the first created instead of adding one. -/
theorem C5_crm_single_profile_per_user
    (users : UsersTable) (profiles₀ : ProfilesTable)
    (headers₁ headers₂ : Headers) (p₁ p₂ : Payload) (t₁ t₂ : Int) (u : JVal)
    (hres₁ : resolveWebhookUser users p₁ headers₁ = .resolved u)
    (hres₂ : resolveWebhookUser users p₂ headers₂ = .resolved u)
    (hclass₁ : classifyWebhook p₁ = some false)
    (hclass₂ : classifyWebhook p₂ = some false)
    (hget : profilesGet profiles₀ ("crm_" ++ u.pyStr) = none)
    (hscan : profiles₀.filter
      (fun (p : ProfileRec) =>
        p.userId == u && p.sourceId == some (.str ("crm_" ++ u.pyStr))) = []) :
    (handle_zapier_webhook users profiles₀ headers₁ p₁ t₁).1.field "profileId" =
        some (.str ("crm_" ++ u.pyStr)) ∧
    (handle_zapier_webhook users (handle_zapier_webhook users profiles₀ headers₁ p₁ t₁).2
        headers₂ p₂ t₂).1.field "profileId" = some (.str ("crm_" ++ u.pyStr)) ∧
    (handle_zapier_webhook users (handle_zapier_webhook users profiles₀ headers₁ p₁ t₁).2
        headers₂ p₂ t₂).1.field "action" = some (.str "updated") ∧
    (handle_zapier_webhook users (handle_zapier_webhook users profiles₀ headers₁ p₁ t₁).2
        headers₂ p₂ t₂).2.map (fun p => p.profileId) =
      (handle_zapier_webhook users profiles₀ headers₁ p₁ t₁).2.map (fun p => p.profileId) := by
  rw [webhook_crm_fresh users profiles₀ headers₁ p₁ t₁ u hres₁ hclass₁ hget hscan]
  rw [show (crmResponse p₁ u "created", profilesPut profiles₀ (crmFreshRec p₁ u t₁)).2 =
      profilesPut profiles₀ (crmFreshRec p₁ u t₁) from rfl]
  have hex₂ : profilesGet (profilesPut profiles₀ (crmFreshRec p₁ u t₁))
      ("crm_" ++ u.pyStr) = some (crmFreshRec p₁ u t₁) :=
    profilesGet_put_self profiles₀ _
  rw [webhook_crm_append users _ headers₂ p₂ t₂ u (crmFreshRec p₁ u t₁) [newRowOf p₁ []]
    hres₂ hclass₂ hex₂ rfl rfl]
  refine ⟨rfl, rfl, rfl, ?_⟩
  exact profilesPut_map_profileId _ _ ⟨_, hex₂⟩

/-- Witness for C5 with two CRM deliveries carrying different employee
ids. -/
theorem C5_crm_single_profile_per_user_witness :
    (handle_zapier_webhook
        [⟨"g1", "jane@x.com", .str "Jane", .str "", 5, 5, .null, .null⟩] [] []
        [("userId", .str "g1"), ("employeeId", .str "EMP1"), ("phone", .str "123")] 1000).1.field
        "profileId" = some (.str ("crm_" ++ (JVal.str "g1").pyStr)) ∧
    (handle_zapier_webhook [⟨"g1", "jane@x.com", .str "Jane", .str "", 5, 5, .null, .null⟩]
        (handle_zapier_webhook
          [⟨"g1", "jane@x.com", .str "Jane", .str "", 5, 5, .null, .null⟩] [] []
          [("userId", .str "g1"), ("employeeId", .str "EMP1"), ("phone", .str "123")] 1000).2 []
        [("userId", .str "g1"), ("employeeId", .str "EMP2"), ("phone", .str "456")] 2000).1.field
        "profileId" = some (.str ("crm_" ++ (JVal.str "g1").pyStr)) ∧
    (handle_zapier_webhook [⟨"g1", "jane@x.com", .str "Jane", .str "", 5, 5, .null, .null⟩]
        (handle_zapier_webhook
          [⟨"g1", "jane@x.com", .str "Jane", .str "", 5, 5, .null, .null⟩] [] []
          [("userId", .str "g1"), ("employeeId", .str "EMP1"), ("phone", .str "123")] 1000).2 []
        [("userId", .str "g1"), ("employeeId", .str "EMP2"), ("phone", .str "456")] 2000).1.field
        "action" = some (.str "updated") ∧
    (handle_zapier_webhook [⟨"g1", "jane@x.com", .str "Jane", .str "", 5, 5, .null, .null⟩]
        (handle_zapier_webhook
          [⟨"g1", "jane@x.com", .str "Jane", .str "", 5, 5, .null, .null⟩] [] []
          [("userId", .str "g1"), ("employeeId", .str "EMP1"), ("phone", .str "123")] 1000).2 []
        [("userId", .str "g1"), ("employeeId", .str "EMP2"), ("phone", .str "456")] 2000).2.map
      (fun p => p.profileId) =
      (handle_zapier_webhook
        [⟨"g1", "jane@x.com", .str "Jane", .str "", 5, 5, .null, .null⟩] [] []
        [("userId", .str "g1"), ("employeeId", .str "EMP1"), ("phone", .str "123")] 1000).2.map
      (fun p => p.profileId) :=
  C5_crm_single_profile_per_user
    [⟨"g1", "jane@x.com", .str "Jane", .str "", 5, 5, .null, .null⟩] [] [] []
    [("userId", .str "g1"), ("employeeId", .str "EMP1"), ("phone", .str "123")]
    [("userId", .str "g1"), ("employeeId", .str "EMP2"), ("phone", .str "456")]
    1000 2000 (.str "g1")
    (by decide) (by decide) (by decide) (by decide) (by decide) (by decide)

/-- C10: when the profile id derived for a delivery (here
`googlesheets_{spreadsheetId}`) names a stored record owned by a *different*
user, the ownership check invalidates the merge candidate, and the handler
writes a fresh single-row profile for the resolved user under that same id —
replacing the other user's record rather than preserving it. -/
theorem C10_profile_id_collision_overwrites
    (users : UsersTable) (profiles : ProfilesTable) (headers : Headers)
    (body : Payload) (ts : Int) (u : JVal) (s : String) (src : String)
    (R : ProfileRec)
    (hres : resolveWebhookUser users body headers = .resolved u)
    (hsid : body.lookup "spreadsheetId" = some (.str s)) (hs : s ≠ "")
    (hsrc : sourceLower body = some src)
    (hexist : profilesGet profiles ("googlesheets_" ++ s) = some R)
    (howner : R.userId ≠ u) :
    (handle_zapier_webhook users profiles headers body ts).1.field "action" =
        some (.str "created") ∧
    (∃ rec, profilesGet (handle_zapier_webhook users profiles headers body ts).2
        ("googlesheets_" ++ s) = some rec ∧
      rec.userId = u ∧ rec.createdAt = ts ∧
      (∃ rn, rec.fields = .rowsObj [stripMetadataFields body ++ [("row", rn)]])) ∧
    profilesGet (handle_zapier_webhook users profiles headers body ts).2
        ("googlesheets_" ++ s) ≠ some R := by
  rw [webhook_sheets_overwrite users profiles headers body ts u s src R
    hres hsid hs hsrc hexist howner]
  refine ⟨rfl, ⟨sheetsFreshRec body headers u s ts, profilesGet_put_self _ _, rfl, rfl,
    _, rfl⟩, ?_⟩
  intro hcontra
  rw [show (sheetsResponse body u s "created",
      profilesPut profiles (sheetsFreshRec body headers u s ts)).2 =
      profilesPut profiles (sheetsFreshRec body headers u s ts) from rfl] at hcontra
  have : (sheetsFreshRec body headers u s ts) = R :=
    Option.some.inj ((profilesGet_put_self profiles (sheetsFreshRec body headers u s ts)).symm.trans hcontra)
  exact howner (by rw [← this]; rfl)

/-- Witness for C10: user `g2`'s delivery with the same spreadsheet id
replaces the record previously owned by `other_user`. -/
theorem C10_profile_id_collision_overwrites_witness :
    (handle_zapier_webhook [⟨"g2", "bob@x.com", .str "Bob", .str "", 5, 5, .null, .null⟩]
        [⟨"googlesheets_S1", .str "other_user", "Google Sheets: Old",
          .rowsObj [[("x", .str "1")]], "google-sheets", some (.str "S1"),
          some (.str "google-sheets"), false, 11, 12⟩] []
        [("userId", .str "g2"), ("spreadsheetId", .str "S1"), ("col_a", .str "v")] 3000).1.field
        "action" = some (.str "created") ∧
    (∃ rec, profilesGet (handle_zapier_webhook
          [⟨"g2", "bob@x.com", .str "Bob", .str "", 5, 5, .null, .null⟩]
          [⟨"googlesheets_S1", .str "other_user", "Google Sheets: Old",
            .rowsObj [[("x", .str "1")]], "google-sheets", some (.str "S1"),
            some (.str "google-sheets"), false, 11, 12⟩] []
          [("userId", .str "g2"), ("spreadsheetId", .str "S1"), ("col_a", .str "v")] 3000).2
        ("googlesheets_" ++ "S1") = some rec ∧
      rec.userId = .str "g2" ∧ rec.createdAt = 3000 ∧
      (∃ rn, rec.fields = .rowsObj [stripMetadataFields
        [("userId", .str "g2"), ("spreadsheetId", .str "S1"), ("col_a", .str "v")] ++
        [("row", rn)]])) ∧
    profilesGet (handle_zapier_webhook
        [⟨"g2", "bob@x.com", .str "Bob", .str "", 5, 5, .null, .null⟩]
        [⟨"googlesheets_S1", .str "other_user", "Google Sheets: Old",
          .rowsObj [[("x", .str "1")]], "google-sheets", some (.str "S1"),
          some (.str "google-sheets"), false, 11, 12⟩] []
        [("userId", .str "g2"), ("spreadsheetId", .str "S1"), ("col_a", .str "v")] 3000).2
        ("googlesheets_" ++ "S1") ≠
      some ⟨"googlesheets_S1", .str "other_user", "Google Sheets: Old",
        .rowsObj [[("x", .str "1")]], "google-sheets", some (.str "S1"),
        some (.str "google-sheets"), false, 11, 12⟩ :=
  C10_profile_id_collision_overwrites
    [⟨"g2", "bob@x.com", .str "Bob", .str "", 5, 5, .null, .null⟩]
    [⟨"googlesheets_S1", .str "other_user", "Google Sheets: Old",
      .rowsObj [[("x", .str "1")]], "google-sheets", some (.str "S1"),
      some (.str "google-sheets"), false, 11, 12⟩] []
    [("userId", .str "g2"), ("spreadsheetId", .str "S1"), ("col_a", .str "v")]
    3000 (.str "g2") "S1" "" _
    (by decide) (by decide) (by decide) (by decide) (by decide) (by decide)

/-! ## C3: webhook error paths -/

/-- No option of the resolution chain produces a user: the handler's 400
path. -/
theorem resolve_missing_of
    (users : UsersTable) (body : Payload) (headers : Headers)
    (h1 : (dget body "userId").truthy = false)
    (h2 : pyLowerStrip (emailChainBody body) = some "")
    (h3 : emailFromHeaders headers = "" ∨
      scanUsersByEmail users (emailFromHeaders headers) = [])
    (g : String)
    (h4 : pyLowerStrip (googleEmailChain body) = some g)
    (h5 : g = "" ∨ scanUsersByEmail users g = []) :
    resolveWebhookUser users body headers = .missing := by
  unfold resolveWebhookUser
  rw [if_neg (by simp [h1]), h2]
  simp only [ne_eq, not_true, if_false, if_neg (by simp : ¬("" : String) ≠ "")]
  have hHeaders : (if emailFromHeaders headers ≠ "" then
      (scanUsersByEmail users (emailFromHeaders headers)).head? else none) = none := by
    rcases h3 with h | h
    · rw [if_neg (by simp [h])]
    · by_cases hh : emailFromHeaders headers = ""
      · rw [if_neg (by simp [hh])]
      · rw [if_pos hh, h]
        rfl
  simp only [hHeaders, h4]
  by_cases hg : g = ""
  · rw [if_neg (by simp [hg])]
  · rw [if_pos (by simpa using hg)]
    rcases h5 with h | h
    · exact absurd h hg
    · rw [h]
      rfl

/-- A non-empty primary-chain email that matches no user (exactly or
case-insensitively): the handler's 404 path. -/
theorem resolve_notFound_of
    (users : UsersTable) (body : Payload) (headers : Headers) (e : String)
    (h1 : (dget body "userId").truthy = false)
    (h2 : pyLowerStrip (emailChainBody body) = some e) (he : e ≠ "")
    (h3 : scanUsersByEmail users e = [])
    (h4 : scanUsersByEmailCI users e = []) :
    resolveWebhookUser users body headers = .notFound e := by
  unfold resolveWebhookUser
  rw [if_neg (by simp [h1])]
  simp only [h2]
  rw [if_pos he, h3]
  simp only [List.isEmpty_nil, if_true, h4]

/-- An error outcome of the resolution phase leaves the profile table
untouched and produces the corresponding response. -/
theorem webhook_missing_resp
    (users : UsersTable) (profiles : ProfilesTable) (headers : Headers)
    (body : Payload) (ts : Int)
    (hne : body.isEmpty = false)
    (h : resolveWebhookUser users body headers = .missing) :
    handle_zapier_webhook users profiles headers body ts =
      (create_response 400 [("error", .str "userId or email is required")], profiles) := by
  unfold handle_zapier_webhook
  rw [hne]
  simp only [Bool.false_eq_true, if_false, h]

theorem webhook_notFound_resp
    (users : UsersTable) (profiles : ProfilesTable) (headers : Headers)
    (body : Payload) (ts : Int) (e : String)
    (hne : body.isEmpty = false)
    (h : resolveWebhookUser users body headers = .notFound e) :
    handle_zapier_webhook users profiles headers body ts =
      (create_response 404
        [("error", .str "User not found"), ("received_email", .str e)], profiles) := by
  unfold handle_zapier_webhook
  rw [hne]
  simp only [Bool.false_eq_true, if_false, h]

/-- C3 as amended.  First part: a payload with no truthy `userId`, no usable
email in the primary body chain, and header/google-account emails that match
no stored user gets a 400 (the `userId or email is required` message when the
body is non-empty; the empty-body 400 otherwise), and the profile store is
unchanged.  Second part: a payload whose *primary-chain* email is non-empty
but matches no stored user — exactly or case-insensitively — gets a 404
(`User not found`), and the profile store is unchanged.  (Emails found
only via request headers or via the secondary google-account key names fall
through to the 400, not the 404; see the counterexample.) -/
theorem C3_unresolved_user_responses :
    (∀ (users : UsersTable) (profiles : ProfilesTable) (headers : Headers)
       (body : Payload) (ts : Int) (g : String),
      (dget body "userId").truthy = false →
      pyLowerStrip (emailChainBody body) = some "" →
      (emailFromHeaders headers = "" ∨
        scanUsersByEmail users (emailFromHeaders headers) = []) →
      pyLowerStrip (googleEmailChain body) = some g →
      (g = "" ∨ scanUsersByEmail users g = []) →
      (handle_zapier_webhook users profiles headers body ts).1.status = 400 ∧
      (handle_zapier_webhook users profiles headers body ts).2 = profiles) ∧
    (∀ (users : UsersTable) (profiles : ProfilesTable) (headers : Headers)
       (body : Payload) (ts : Int) (e : String),
      (dget body "userId").truthy = false →
      pyLowerStrip (emailChainBody body) = some e → e ≠ "" →
      scanUsersByEmail users e = [] →
      scanUsersByEmailCI users e = [] →
      (handle_zapier_webhook users profiles headers body ts).1.status = 404 ∧
      (handle_zapier_webhook users profiles headers body ts).1.field "error" =
        some (.str "User not found") ∧
      (handle_zapier_webhook users profiles headers body ts).2 = profiles) := by
  constructor
  · intro users profiles headers body ts g h1 h2 h3 h4 h5
    cases hne : body.isEmpty with
    | true =>
      have hb : body = [] := by
        cases body with
        | nil => rfl
        | cons a tl => simp [List.isEmpty] at hne
      subst hb
      unfold handle_zapier_webhook
      exact ⟨rfl, rfl⟩
    | false =>
      rw [webhook_missing_resp users profiles headers body ts hne
        (resolve_missing_of users body headers h1 h2 h3 g h4 h5)]
      exact ⟨rfl, rfl⟩
  · intro users profiles headers body ts e h1 h2 he h3 h4
    have hne : body.isEmpty = false := by
      cases body with
      | nil =>
        exfalso
        simp [emailChainBody, dget, jor, JVal.truthy, pyLowerStrip, List.lookup] at h2
        exact he h2.symm
      | cons a tl => rfl
    rw [webhook_notFound_resp users profiles headers body ts e hne
      (resolve_notFound_of users body headers e h1 h2 he h3 h4)]
    exact ⟨rfl, rfl, rfl⟩

/-- Witness for C3 at concrete inputs: an unresolvable payload gets 400 and
a known-key email that matches nobody gets 404, the store unchanged in
both. -/
theorem C3_unresolved_user_responses_witness :
    ((handle_zapier_webhook [⟨"g1", "jane@x.com", .null, .null, 0, 0, .null, .null⟩]
        [] [] [("a", .str "b")] 50).1.status = 400 ∧
     (handle_zapier_webhook [⟨"g1", "jane@x.com", .null, .null, 0, 0, .null, .null⟩]
        [] [] [("a", .str "b")] 50).2 = []) ∧
    ((handle_zapier_webhook [⟨"g1", "jane@x.com", .null, .null, 0, 0, .null, .null⟩]
        [] [] [("email", .str "ghost@x.com"), ("a", .str "b")] 50).1.status = 404 ∧
     (handle_zapier_webhook [⟨"g1", "jane@x.com", .null, .null, 0, 0, .null, .null⟩]
        [] [] [("email", .str "ghost@x.com"), ("a", .str "b")] 50).1.field "error" =
       some (.str "User not found") ∧
     (handle_zapier_webhook [⟨"g1", "jane@x.com", .null, .null, 0, 0, .null, .null⟩]
        [] [] [("email", .str "ghost@x.com"), ("a", .str "b")] 50).2 = []) :=
  ⟨C3_unresolved_user_responses.1 [⟨"g1", "jane@x.com", .null, .null, 0, 0, .null, .null⟩]
     [] [] [("a", .str "b")] 50 "" (by decide) (by decide) (by decide) (by decide) (by decide),
   C3_unresolved_user_responses.2 [⟨"g1", "jane@x.com", .null, .null, 0, 0, .null, .null⟩]
     [] [] [("email", .str "ghost@x.com"), ("a", .str "b")] 50 "ghost@x.com"
     (by decide) (by decide) (by decide) (by decide) (by decide)⟩

/-- C3 counterexample to the claim as stated: the payload
`{"googleAccountEmail": "ghost@x.com", "a": "b"}` resolves an email from one
of the payload's alternate email key names, that email matches no stored
user, and yet the webhook answers 400 (`userId or email is required`), not
the 404 the claim requires — the hard 404 is issued only for the primary
email key chain. -/
theorem C3_google_email_not_found_is_400 :
    pyLowerStrip (googleEmailChain
      [("googleAccountEmail", .str "ghost@x.com"), ("a", .str "b")]) =
      some "ghost@x.com" ∧
    scanUsersByEmail [⟨"g1", "jane@x.com", .null, .null, 0, 0, .null, .null⟩]
      "ghost@x.com" = [] ∧
    (handle_zapier_webhook [⟨"g1", "jane@x.com", .null, .null, 0, 0, .null, .null⟩]
      [] [] [("googleAccountEmail", .str "ghost@x.com"), ("a", .str "b")] 50).1.status = 400 ∧
    (handle_zapier_webhook [⟨"g1", "jane@x.com", .null, .null, 0, 0, .null, .null⟩]
      [] [] [("googleAccountEmail", .str "ghost@x.com"), ("a", .str "b")] 50).1.status ≠ 404 := by
  decide

/-! ## C4: payload-origin classification -/

/-- C4 counterexample to the claim as stated: classification is *not* a
function of only the payload's key set and the source tag — two payloads
with the identical key sequence (`employeeId`) and identical (absent)
source tag classify differently, because the *value* of `employeeId`
(truthy vs. empty) decides the default branch. -/
theorem C4_classification_depends_on_employeeId_value :
    ([("employeeId", JVal.str "X")] : Payload).map Prod.fst =
      ([("employeeId", JVal.str "")] : Payload).map Prod.fst ∧
    ([("employeeId", JVal.str "X")] : Payload).lookup "source" =
      ([("employeeId", JVal.str "")] : Payload).lookup "source" ∧
    classifyWebhook [("employeeId", .str "X")] = some false ∧
    classifyWebhook [("employeeId", .str "")] = some true := by
  decide

theorem keysLower_congr {b₁ b₂ : Payload} (h : b₁.map Prod.fst = b₂.map Prod.fst) :
    b₁.map (fun kv => pyLower kv.1) = b₂.map (fun kv => pyLower kv.1) := by
  have hv : ∀ (b : Payload),
      b.map (fun kv => pyLower kv.1) = (b.map Prod.fst).map pyLower := by
    intro b
    rw [List.map_map]
    rfl
  rw [hv, hv, h]

/-- C4 as amended.  First part: classification is a pure function of the
payload's key sequence, its `source` entry, and the *truthiness of the
employeeId/id values*.  Second part: for any payload whose `source` lookup
does not raise, it classifies as spreadsheet-style iff at least one of the
four independent signals holds or the payload carries no truthy
`employeeId`/`id` value; otherwise CRM-style. -/
theorem C4_classification_signals :
    (∀ b₁ b₂ : Payload,
      b₁.map Prod.fst = b₂.map Prod.fst →
      b₁.lookup "source" = b₂.lookup "source" →
      (employeeIdOf b₁).truthy = (employeeIdOf b₂).truthy →
      classifyWebhook b₁ = classifyWebhook b₂) ∧
    (∀ (body : Payload) (src : String), sourceLower body = some src →
      (classifyWebhook body = some true ↔
        has_row_number body = true ∨ has_sheet_indicators body = true ∨
        sourceNamesSheets src = true ∨ has_zapier_column_pattern body = true ∨
        (employeeIdOf body).truthy = false)) := by
  constructor
  · intro b₁ b₂ hkeys hsource hemp
    have hrow : has_row_number b₁ = has_row_number b₂ := by
      unfold has_row_number
      rw [keysLower_congr hkeys]
    have hsheet : has_sheet_indicators b₁ = has_sheet_indicators b₂ := by
      unfold has_sheet_indicators
      rw [keysLower_congr hkeys]
    have hzap : has_zapier_column_pattern b₁ = has_zapier_column_pattern b₂ := by
      unfold has_zapier_column_pattern
      rw [show (fun (kv : String × JVal) => kv.1) = Prod.fst from rfl, hkeys]
    have hsrc : sourceLower b₁ = sourceLower b₂ := by
      unfold sourceLower
      rw [hsource]
    unfold classifyWebhook
    rw [hrow, hsheet, hzap, hsrc, hemp]
  · intro body src hsrc
    unfold classifyWebhook
    rw [hsrc]
    simp only [Option.map_some', Option.some.injEq, Bool.or_eq_true,
      Bool.not_eq_true']
    tauto

/-- Witness for C4: the congruence at two payloads agreeing on keys, source
and employee-value truthiness, and the signal characterization at a concrete
payload. -/
theorem C4_classification_signals_witness :
    classifyWebhook [("x", .str "1"), ("employeeId", .str "e")] =
      classifyWebhook [("x", .str "2"), ("employeeId", .str "f")] ∧
    (classifyWebhook [("employeeId", .str "X"), ("rowNumber", .num 3)] = some true ↔
      has_row_number [("employeeId", .str "X"), ("rowNumber", .num 3)] = true ∨
      has_sheet_indicators [("employeeId", .str "X"), ("rowNumber", .num 3)] = true ∨
      sourceNamesSheets "" = true ∨
      has_zapier_column_pattern [("employeeId", .str "X"), ("rowNumber", .num 3)] = true ∨
      (employeeIdOf [("employeeId", .str "X"), ("rowNumber", .num 3)]).truthy = false) :=
  ⟨C4_classification_signals.1 _ _ (by decide) (by decide) (by decide),
   C4_classification_signals.2 [("employeeId", .str "X"), ("rowNumber", .num 3)] ""
     (by decide)⟩

/-! ## C7 / C8: field-mapping cache behaviour -/

theorem incrRateLimit_mappings (st : RedisState) (ip : String) (now : Int) :
    (redisIncrRateLimit st ip now).2.mappings = st.mappings := rfl

theorem incrRateLimit_usage (st : RedisState) (ip : String) (now : Int) :
    (redisIncrRateLimit st ip now).2.usage = st.usage := rfl

/-- Cache-hit characterization of `handle_get_field_mapping`: the stored
document's key and confidence are returned, the usage counter is incremented
by one, and the entry is re-written with the refreshed 365-day expiry. -/
theorem getFieldMapping_hit (redis : RedisState) (now : Int)
    (remainingMs : Option Int) (ai : Option AIMatch) (availableKeys : List String)
    (body : Payload) (sigJ : JVal) (d : MappingData) (exp : Int)
    (hbody : dget body "fieldSignature" = sigJ) (hsig : sigJ.truthy = true)
    (hmap : redis.mappings.lookup sigJ.pyStr = some (d, exp)) (hnow : now < exp) :
    handle_get_field_mapping redis now remainingMs ai availableKeys body =
      (create_response 200
        [("matchedKey", d.matchedKey), ("confidence", d.confidence),
         ("usageCount", .num ((redis.usage.lookup sigJ.pyStr).getD 0 + 1))],
       redisSetMapping
         { redis with usage := assocPut redis.usage sigJ.pyStr ((redis.usage.lookup sigJ.pyStr).getD 0 + 1) }
         sigJ.pyStr
         { d with usageCount := (redis.usage.lookup sigJ.pyStr).getD 0 + 1,
                  updatedAt := now }
         now) := by
  have hget : redisGetMapping redis sigJ.pyStr now = some (d, exp) := by
    unfold redisGetMapping
    simp only [hmap, if_pos hnow]
  unfold handle_get_field_mapping
  simp only [hbody, hsig, not_true, Bool.true_eq_false, if_false, if_neg
    (by simp : ¬¬true = true), hget, redisIncrUsage]

/-- C8 as amended: a lookup that hits a stored, unexpired entry returns the
stored matched key together with a usage count one greater than the
signature's current counter (so successive lookups return counts that
increase by one each call, starting at 1 for a signature never looked up
before), and refreshes the entry's 365-day expiry (`REDIS_TTL`); the store
operation preserves an existing usage counter rather than resetting it, so
the count continues from the number of lookups already performed. -/
theorem C8_lookup_increments_usage
    (redis : RedisState) (now : Int) (remainingMs : Option Int)
    (ai : Option AIMatch) (availableKeys : List String)
    (body : Payload) (sigJ : JVal) (d : MappingData) (exp : Int)
    (hbody : dget body "fieldSignature" = sigJ) (hsig : sigJ.truthy = true)
    (hmap : redis.mappings.lookup sigJ.pyStr = some (d, exp)) (hnow : now < exp) :
    (handle_get_field_mapping redis now remainingMs ai availableKeys body).1 =
      create_response 200
        [("matchedKey", d.matchedKey), ("confidence", d.confidence),
         ("usageCount", .num ((redis.usage.lookup sigJ.pyStr).getD 0 + 1))] ∧
    (handle_get_field_mapping redis now remainingMs ai availableKeys body).2.usage.lookup
        sigJ.pyStr = some ((redis.usage.lookup sigJ.pyStr).getD 0 + 1) ∧
    (handle_get_field_mapping redis now remainingMs ai availableKeys body).2.mappings.lookup
        sigJ.pyStr =
      some ({ d with usageCount := (redis.usage.lookup sigJ.pyStr).getD 0 + 1,
                     updatedAt := now }, now + REDIS_TTL) := by
  rw [getFieldMapping_hit redis now remainingMs ai availableKeys body sigJ d exp
    hbody hsig hmap hnow]
  refine ⟨rfl, ?_, ?_⟩
  · exact assocPut_lookup_self _ _ _
  · exact assocPut_lookup_self _ _ _

/-- Witness for C8: first lookup after a fresh store returns usage count 1
and refreshes the expiry. -/
theorem C8_lookup_increments_usage_witness :
    (handle_get_field_mapping
        ⟨[("sig1", ⟨.str "email", .num 95, 0, 10, 10, .str "", .str "", none⟩, 31536010)], [], []⟩
        20 none none [] [("fieldSignature", .str "sig1")]).1 =
      create_response 200
        [("matchedKey", .str "email"), ("confidence", .num 95),
         ("usageCount", .num 1)] ∧
    (handle_get_field_mapping
        ⟨[("sig1", ⟨.str "email", .num 95, 0, 10, 10, .str "", .str "", none⟩, 31536010)], [], []⟩
        20 none none [] [("fieldSignature", .str "sig1")]).2.usage.lookup "sig1" =
      some 1 ∧
    (handle_get_field_mapping
        ⟨[("sig1", ⟨.str "email", .num 95, 0, 10, 10, .str "", .str "", none⟩, 31536010)], [], []⟩
        20 none none [] [("fieldSignature", .str "sig1")]).2.mappings.lookup "sig1" =
      some (⟨.str "email", .num 95, 1, 10, 20, .str "", .str "", none⟩, 20 + REDIS_TTL) :=
  C8_lookup_increments_usage
    ⟨[("sig1", ⟨.str "email", .num 95, 0, 10, 10, .str "", .str "", none⟩, 31536010)], [], []⟩
    20 none none [] [("fieldSignature", .str "sig1")] (.str "sig1")
    ⟨.str "email", .num 95, 0, 10, 10, .str "", .str "", none⟩ 31536010
    (by decide) (by decide) (by decide) (by decide)

/-- C8 counterexample to the claim as stated: a store does not reset the
usage counter, so "the first lookup after the store returns usage count 1"
fails once the signature has been looked up before a re-store.  Concretely:
store (conf 95) → lookup (usage 1) → lookup (usage 2) → store again
(conf 90, accepted) → the first lookup after that store returns usage count
3, not 1. -/
theorem C8_usage_survives_restore :
    (handle_get_field_mapping
      (handle_post_field_mapping
        (handle_get_field_mapping
          (handle_get_field_mapping
            (handle_post_field_mapping ⟨[], [], []⟩ 10 "1.2.3.4"
              [("fieldSignature", .str "sig1"), ("matchedKey", .str "email"),
               ("confidence", .num 95)]).2
            20 none none [] [("fieldSignature", .str "sig1")]).2
          30 none none [] [("fieldSignature", .str "sig1")]).2
        40 "1.2.3.4"
        [("fieldSignature", .str "sig1"), ("matchedKey", .str "email2"),
         ("confidence", .num 90)]).2
      50 none none [] [("fieldSignature", .str "sig1")]).1.field "usageCount" =
      some (.num 3) ∧
    (handle_get_field_mapping
        (handle_post_field_mapping ⟨[], [], []⟩ 10 "1.2.3.4"
          [("fieldSignature", .str "sig1"), ("matchedKey", .str "email"),
           ("confidence", .num 95)]).2
        20 none none [] [("fieldSignature", .str "sig1")]).1.field "usageCount" =
      some (.num 1) := by
  decide

/-- C7 as amended.  First part: a well-formed store call with confidence
below 80 answers 200 with the explicit skip message and leaves the whole
cache state unchanged.  Second part: a store call with confidence ≥ 80 —
*provided the caller's daily write cap (100 per IP) is not exceeded* — is
persisted under the signature with a 365-day expiry and the stored matched
key, and any subsequent lookup of that signature before the expiry returns
the stored matched key with a 200.  (A rate-limited high-confidence call is
answered 429 and stores nothing; see the counterexample.) -/
theorem C7_confidence_threshold_store :
    (∀ (redis : RedisState) (now : Int) (ip : String) (body : Payload) (c : Int),
      (dget body "fieldSignature").truthy = true →
      (dget body "matchedKey").truthy = true →
      dgetD body "confidence" (.num 0) = .num c →
      c < 80 →
      handle_post_field_mapping redis now ip body =
        (create_response 200 [("message", .str "Low confidence match not stored")],
         redis)) ∧
    (∀ (redis : RedisState) (now : Int) (ip : String) (body : Payload) (c : Int),
      (dget body "fieldSignature").truthy = true →
      (dget body "matchedKey").truthy = true →
      dgetD body "confidence" (.num 0) = .num c →
      80 ≤ c →
      (redisIncrRateLimit redis ip now).1 ≤ 100 →
      (handle_post_field_mapping redis now ip body).1.status = 200 ∧
      (∃ d : MappingData, d.matchedKey = dget body "matchedKey" ∧
        (handle_post_field_mapping redis now ip body).2.mappings.lookup
          (dget body "fieldSignature").pyStr = some (d, now + REDIS_TTL)) ∧
      (∀ (t₂ : Int) (remainingMs : Option Int) (ai : Option AIMatch)
         (availableKeys : List String), t₂ < now + REDIS_TTL →
        (handle_get_field_mapping (handle_post_field_mapping redis now ip body).2
            t₂ remainingMs ai availableKeys
            [("fieldSignature", dget body "fieldSignature")]).1.status = 200 ∧
        (handle_get_field_mapping (handle_post_field_mapping redis now ip body).2
            t₂ remainingMs ai availableKeys
            [("fieldSignature", dget body "fieldSignature")]).1.field "matchedKey" =
          some (dget body "matchedKey"))) := by
  constructor
  · intro redis now ip body c hsig hkey hconf hlow
    unfold handle_post_field_mapping
    rw [if_neg (by simp [hsig, hkey])]
    simp only [hconf, asInt, if_pos hlow]
  · intro redis now ip body c hsig hkey hconf hhigh hrate
    have hstore : ∃ d : MappingData, d.matchedKey = dget body "matchedKey" ∧
        handle_post_field_mapping redis now ip body =
          (create_response 200
            [("success", .bool true), ("message", .str "Mapping stored"),
             ("fieldSignature", dget body "fieldSignature")],
           redisSetMapping (redisIncrRateLimit redis ip now).2
             (dget body "fieldSignature").pyStr d now) := by
      unfold handle_post_field_mapping
      rw [if_neg (by simp [hsig, hkey])]
      simp only [hconf, asInt]
      rw [if_neg (by omega : ¬c < 80)]
      rcases hq : redisIncrRateLimit redis ip now with ⟨dw, redis'⟩
      rw [hq] at hrate
      simp only [hq]
      rw [if_neg (by simp only [] at hrate ⊢; omega : ¬dw > 100)]
      rcases hm : redisGetMapping redis' (dget body "fieldSignature").pyStr now with
        _ | ⟨d0, exp0⟩
      · exact ⟨_, rfl, rfl⟩
      · exact ⟨_, rfl, rfl⟩
    obtain ⟨d, hd, heq⟩ := hstore
    have hlookup : (handle_post_field_mapping redis now ip body).2.mappings.lookup
        (dget body "fieldSignature").pyStr = some (d, now + REDIS_TTL) := by
      rw [heq]
      exact assocPut_lookup_self _ _ _
    refine ⟨by rw [heq]; rfl, ⟨d, hd, hlookup⟩, ?_⟩
    intro t₂ remainingMs ai availableKeys ht
    rw [getFieldMapping_hit (handle_post_field_mapping redis now ip body).2 t₂
      remainingMs ai availableKeys [("fieldSignature", dget body "fieldSignature")]
      (dget body "fieldSignature") d (now + REDIS_TTL)
      (by simp [dget]) hsig hlookup ht]
    exact ⟨rfl, by simp [Response.field, create_response, hd]⟩

/-- Witness for C7: a confidence-50 store is a no-op with the skip message; a
confidence-95 store persists and the subsequent lookup returns the key. -/
theorem C7_confidence_threshold_store_witness :
    handle_post_field_mapping ⟨[], [], []⟩ 10 "1.2.3.4"
        [("fieldSignature", .str "sig1"), ("matchedKey", .str "email"),
         ("confidence", .num 50)] =
      (create_response 200 [("message", .str "Low confidence match not stored")],
       ⟨[], [], []⟩) ∧
    ((handle_post_field_mapping ⟨[], [], []⟩ 10 "1.2.3.4"
        [("fieldSignature", .str "sig1"), ("matchedKey", .str "email"),
         ("confidence", .num 95)]).1.status = 200 ∧
     (∃ d : MappingData,
        d.matchedKey = dget [("fieldSignature", .str "sig1"), ("matchedKey", .str "email"),
          ("confidence", .num 95)] "matchedKey" ∧
        (handle_post_field_mapping ⟨[], [], []⟩ 10 "1.2.3.4"
          [("fieldSignature", .str "sig1"), ("matchedKey", .str "email"),
           ("confidence", .num 95)]).2.mappings.lookup
          (dget [("fieldSignature", .str "sig1"), ("matchedKey", .str "email"),
            ("confidence", .num 95)] "fieldSignature").pyStr = some (d, 10 + REDIS_TTL)) ∧
     (∀ (t₂ : Int) (remainingMs : Option Int) (ai : Option AIMatch)
        (availableKeys : List String), t₂ < 10 + REDIS_TTL →
       (handle_get_field_mapping (handle_post_field_mapping ⟨[], [], []⟩ 10 "1.2.3.4"
            [("fieldSignature", .str "sig1"), ("matchedKey", .str "email"),
             ("confidence", .num 95)]).2
           t₂ remainingMs ai availableKeys
           [("fieldSignature", dget [("fieldSignature", .str "sig1"),
             ("matchedKey", .str "email"), ("confidence", .num 95)] "fieldSignature")]).1.status =
         200 ∧
       (handle_get_field_mapping (handle_post_field_mapping ⟨[], [], []⟩ 10 "1.2.3.4"
            [("fieldSignature", .str "sig1"), ("matchedKey", .str "email"),
             ("confidence", .num 95)]).2
           t₂ remainingMs ai availableKeys
           [("fieldSignature", dget [("fieldSignature", .str "sig1"),
             ("matchedKey", .str "email"), ("confidence", .num 95)] "fieldSignature")]).1.field
         "matchedKey" =
         some (dget [("fieldSignature", .str "sig1"), ("matchedKey", .str "email"),
           ("confidence", .num 95)] "matchedKey"))) :=
  ⟨C7_confidence_threshold_store.1 ⟨[], [], []⟩ 10 "1.2.3.4"
     [("fieldSignature", .str "sig1"), ("matchedKey", .str "email"), ("confidence", .num 50)]
     50 (by decide) (by decide) (by decide) (by decide),
   C7_confidence_threshold_store.2 ⟨[], [], []⟩ 10 "1.2.3.4"
     [("fieldSignature", .str "sig1"), ("matchedKey", .str "email"), ("confidence", .num 95)]
     95 (by decide) (by decide) (by decide) (by decide) (by decide)⟩

/-- C7 counterexample to the claim as stated: with the caller's daily write
counter already at the cap (100, unexpired), a confidence-95 store call is
answered 429, nothing is persisted, and a subsequent lookup misses — so "for
every store call with confidence 80 or above, the mapping is persisted and a
subsequent lookup returns the stored matched key" is false. -/
theorem C7_rate_limited_store_not_persisted :
    (handle_post_field_mapping ⟨[], [], [("1.2.3.4", 100, 1000000)]⟩ 5 "1.2.3.4"
        [("fieldSignature", .str "sig1"), ("matchedKey", .str "email"),
         ("confidence", .num 95)]).1.status = 429 ∧
    (handle_post_field_mapping ⟨[], [], [("1.2.3.4", 100, 1000000)]⟩ 5 "1.2.3.4"
        [("fieldSignature", .str "sig1"), ("matchedKey", .str "email"),
         ("confidence", .num 95)]).2.mappings = [] ∧
    (handle_get_field_mapping
        (handle_post_field_mapping ⟨[], [], [("1.2.3.4", 100, 1000000)]⟩ 5 "1.2.3.4"
          [("fieldSignature", .str "sig1"), ("matchedKey", .str "email"),
           ("confidence", .num 95)]).2
        6 none none [] [("fieldSignature", .str "sig1")]).1.status = 404 := by
  decide

/-! ## C6: batch field-mapping output shape -/

open List

theorem insertByIndex_perm (x : VMapping) (l : List VMapping) :
    insertByIndex x l ~ x :: l := by
  induction l with
  | nil => rfl
  | cons y ys ih =>
    rw [insertByIndex]
    by_cases h : y.fieldIndex ≤ x.fieldIndex
    · rw [if_pos h]
      calc y :: insertByIndex x ys ~ y :: x :: ys := (ih.cons y)
        _ ~ x :: y :: ys := List.Perm.swap x y ys
    · rw [if_neg h]

theorem sortByFieldIndex_perm (l : List VMapping) : sortByFieldIndex l ~ l := by
  have key : ∀ (l acc : List VMapping),
      l.foldl (fun acc x => insertByIndex x acc) acc ~ acc ++ l := by
    intro l
    induction l with
    | nil => intro acc; simp
    | cons x xs ih =>
      intro acc
      calc (x :: xs).foldl (fun acc x => insertByIndex x acc) acc
          = xs.foldl (fun acc x => insertByIndex x acc) (insertByIndex x acc) := rfl
        _ ~ insertByIndex x acc ++ xs := ih _
        _ ~ (x :: acc) ++ xs := (insertByIndex_perm x acc).append_right xs
        _ = x :: (acc ++ xs) := rfl
        _ ~ acc ++ x :: xs := List.perm_middle.symm
  simpa using key l []

/-- The comparison `list.sort(key=...)` orders by. -/
def idxLe (a b : VMapping) : Prop := a.fieldIndex ≤ b.fieldIndex

theorem insertByIndex_pairwise {l : List VMapping} (x : VMapping)
    (h : l.Pairwise idxLe) : (insertByIndex x l).Pairwise idxLe := by
  induction l with
  | nil => simp [insertByIndex, List.Pairwise]
  | cons y ys ih =>
    rw [List.pairwise_cons] at h
    rw [insertByIndex]
    by_cases hle : y.fieldIndex ≤ x.fieldIndex
    · rw [if_pos hle]
      rw [List.pairwise_cons]
      constructor
      · intro z hz
        rcases List.mem_cons.mp ((insertByIndex_perm x ys).mem_iff.mp hz) with hz | hz
        · rw [hz]
          exact hle
        · exact h.1 z hz
      · exact ih h.2
    · rw [if_neg hle]
      rw [List.pairwise_cons]
      constructor
      · intro z hz
        rcases List.mem_cons.mp hz with hz | hz
        · rw [hz]
          exact le_of_not_le hle
        · exact le_trans (le_of_not_le hle) (h.1 z hz)
      · rw [List.pairwise_cons]
        exact h

theorem sortByFieldIndex_pairwise (l : List VMapping) :
    (sortByFieldIndex l).Pairwise idxLe := by
  have key : ∀ (l acc : List VMapping), acc.Pairwise idxLe →
      (l.foldl (fun acc x => insertByIndex x acc) acc).Pairwise idxLe := by
    intro l
    induction l with
    | nil => intro acc h; exact h
    | cons x xs ih =>
      intro acc h
      exact ih _ (insertByIndex_pairwise x h)
  exact key l [] (by simp [List.Pairwise])

theorem validateOne_index {n : Nat} {keys : List String} {m : RawMapping}
    {v : VMapping} (h : validateOne n keys m = some v) :
    0 ≤ v.fieldIndex ∧ v.fieldIndex < (n : Int) := by
  unfold validateOne at h
  split at h
  · exact absurd h (by simp)
  · rename_i i hm
    split at h
    · exact absurd h (by simp)
    · rename_i hb
      push_neg at hb
      split at h
      · split at h
        · cases h
          exact ⟨hb.1, hb.2⟩
        · split at h
          · cases h
            exact ⟨hb.1, hb.2⟩
          · cases h
            exact ⟨hb.1, hb.2⟩
      · split at h
        · cases h
          exact ⟨hb.1, hb.2⟩
        · cases h
          exact ⟨hb.1, hb.2⟩

theorem mem_validateMappings_index {n : Nat} {keys : List String}
    {ms : List RawMapping} {v : VMapping}
    (h : v ∈ validateMappings n keys ms) :
    0 ≤ v.fieldIndex ∧ v.fieldIndex < (n : Int) := by
  obtain ⟨m, -, hm⟩ := List.mem_filterMap.mp h
  exact validateOne_index hm

theorem mem_fillMissing {n : Nat} {V : List VMapping} {v : VMapping} :
    v ∈ fillMissing n V ↔
      ∃ i : Nat, i < n ∧ ¬(V.map (fun m => m.fieldIndex)).contains (i : Int) ∧
        v = synthMapping i := by
  unfold fillMissing
  rw [List.mem_filterMap]
  constructor
  · rintro ⟨i, hi, hv⟩
    rw [List.mem_range] at hi
    by_cases hc : (V.map (fun m => m.fieldIndex)).contains (i : Int)
    · rw [if_pos hc] at hv
      cases hv
    · rw [if_neg hc] at hv
      exact ⟨i, hi, hc, (Option.some.inj hv).symm⟩
  · rintro ⟨i, hi, hc, rfl⟩
    exact ⟨i, List.mem_range.mpr hi, by rw [if_neg hc]⟩

/-- Indices appearing in the fill-in part. -/
theorem fillMissing_map_index (n : Nat) (V : List VMapping) :
    (fillMissing n V).map (fun m => m.fieldIndex) =
      (List.range n).filterMap (fun (i : Nat) =>
        if (V.map (fun m => m.fieldIndex)).contains (i : Int) then none
        else some (i : Int)) := by
  unfold fillMissing
  rw [List.map_filterMap]
  congr 1
  funext i
  by_cases hc : (V.map (fun m => m.fieldIndex)).contains (i : Int)
  · rw [if_pos hc, if_pos hc]
    rfl
  · rw [if_neg hc, if_neg hc]
    rfl

theorem fillMissing_index_nodup (n : Nat) (V : List VMapping) :
    ((fillMissing n V).map (fun m => m.fieldIndex)).Nodup := by
  rw [fillMissing_map_index]
  apply List.Nodup.filterMap
  · intro a b c hca hcb
    by_cases ha : (V.map (fun m => m.fieldIndex)).contains (a : Int)
    · rw [if_pos ha] at hca
      simp at hca
    · rw [if_neg ha] at hca
      by_cases hb : (V.map (fun m => m.fieldIndex)).contains (b : Int)
      · rw [if_pos hb] at hcb
        simp at hcb
      · rw [if_neg hb] at hcb
        simp only [Option.mem_def, Option.some.injEq] at hca hcb
        have : (a : Int) = (b : Int) := by rw [hca, hcb]
        exact_mod_cast this
  · exact List.nodup_range n

/-- C6 as amended.  First part: when the completion-service output parses
and assigns pairwise-distinct (in-range) field indices, the returned
`mappings` list contains exactly one entry per input field index `0..n-1` —
its index sequence is exactly `[0, 1, …, n-1]`, so nothing is missing,
nothing is duplicated, and the list is sorted by input field order — and
every index the service omitted is carried by the synthesized
null-key/zero-confidence entry.  Second part: when the service call fails
(timeout, transport error, empty or unparseable content), the function
returns an *empty* mappings list instead.  (Duplicate service indices are
kept as duplicates; see the counterexample.) -/
theorem C6_batch_exactly_one_entry_per_index :
    (∀ (n : Nat) (keys : List String) (ms : List RawMapping),
      ((validateMappings n keys ms).map (fun m => m.fieldIndex)).Nodup →
      (match_fields_batch_backend n keys (.parsed ms)).map (fun m => m.fieldIndex) =
        (List.range n).map (fun (i : Nat) => (i : Int)) ∧
      (∀ i : Nat, i < n →
        (i : Int) ∉ (validateMappings n keys ms).map (fun m => m.fieldIndex) →
        synthMapping (i : Int) ∈ match_fields_batch_backend n keys (.parsed ms))) ∧
    (∀ (n : Nat) (keys : List String),
      match_fields_batch_backend n keys .failure = []) := by
  constructor
  · intro n keys ms hnd
    have hbatch : match_fields_batch_backend n keys (.parsed ms) =
        sortByFieldIndex (validateMappings n keys ms ++
          fillMissing n (validateMappings n keys ms)) := rfl
    set V := validateMappings n keys ms with hVdef
    set F := fillMissing n V with hFdef
    have hFmem : ∀ v, v ∈ F ↔ ∃ i : Nat, i < n ∧
        ¬(V.map (fun m => m.fieldIndex)).contains (i : Int) ∧ v = synthMapping i :=
      fun v => mem_fillMissing
    have hpermA : sortByFieldIndex (V ++ F) ~ V ++ F := sortByFieldIndex_perm _
    have hmapA : (V ++ F).map (fun m => m.fieldIndex) =
        V.map (fun m => m.fieldIndex) ++ F.map (fun m => m.fieldIndex) :=
      List.map_append _ _ _
    -- membership of the combined index list is exactly the input range
    have hmem : ∀ a : Int,
        a ∈ V.map (fun m => m.fieldIndex) ++ F.map (fun m => m.fieldIndex) ↔
        a ∈ (List.range n).map (fun (i : Nat) => (i : Int)) := by
      intro a
      constructor
      · intro ha
        rcases List.mem_append.mp ha with ha | ha
        · obtain ⟨v, hv, rfl⟩ := List.mem_map.mp ha
          obtain ⟨h0, hlt⟩ := mem_validateMappings_index hv
          refine List.mem_map.mpr ⟨v.fieldIndex.toNat, List.mem_range.mpr ?_, ?_⟩
          · omega
          · omega
        · obtain ⟨v, hv, rfl⟩ := List.mem_map.mp ha
          obtain ⟨i, hi, -, rfl⟩ := (hFmem v).mp hv
          exact List.mem_map.mpr ⟨i, List.mem_range.mpr hi, rfl⟩
      · intro ha
        obtain ⟨i, hi, rfl⟩ := List.mem_map.mp ha
        have hi' := List.mem_range.mp hi
        by_cases hc : (i : Int) ∈ V.map (fun m => m.fieldIndex)
        · exact List.mem_append.mpr (Or.inl hc)
        · refine List.mem_append.mpr (Or.inr ?_)
          refine List.mem_map.mpr ⟨synthMapping i, (hFmem _).mpr ⟨i, hi', ?_, rfl⟩, rfl⟩
          simpa using hc
    have hFnd : (F.map (fun m => m.fieldIndex)).Nodup := fillMissing_index_nodup n V
    have hdisj : ∀ a ∈ V.map (fun m => m.fieldIndex),
        a ∉ F.map (fun m => m.fieldIndex) := by
      intro a haV haF
      obtain ⟨v, hv, rfl⟩ := List.mem_map.mp haF
      obtain ⟨i, -, hc, rfl⟩ := (hFmem v).mp hv
      exact hc (by simpa using haV)
    have hndA : (V.map (fun m => m.fieldIndex) ++
        F.map (fun m => m.fieldIndex)).Nodup := by
      rw [List.nodup_append]
      exact ⟨hnd, hFnd, by simpa [List.Disjoint] using hdisj⟩
    have hndR : ((List.range n).map (fun (i : Nat) => (i : Int))).Nodup := by
      apply List.Nodup.map
      · exact fun a b hh => by simpa using hh
      · exact List.nodup_range n
    have hperm2 : (V ++ F).map (fun m => m.fieldIndex) ~
        (List.range n).map (fun (i : Nat) => (i : Int)) := by
      rw [hmapA]
      exact (List.perm_ext_iff_of_nodup hndA hndR).mpr hmem
    have hperm : (sortByFieldIndex (V ++ F)).map (fun m => m.fieldIndex) ~
        (List.range n).map (fun (i : Nat) => (i : Int)) :=
      (hpermA.map (fun m => m.fieldIndex)).trans hperm2
    have hsorted1 : ((sortByFieldIndex (V ++ F)).map
        (fun m => m.fieldIndex)).Pairwise (· ≤ ·) := by
      rw [List.pairwise_map]
      exact sortByFieldIndex_pairwise (V ++ F)
    have hsorted2 : (((List.range n).map (fun (i : Nat) => (i : Int)))).Pairwise (· ≤ ·) := by
      refine List.Pairwise.map _ ?_ (List.pairwise_lt_range n)
      intro a b hab
      exact_mod_cast Nat.le_of_lt hab
    constructor
    · rw [hbatch]
      exact List.eq_of_perm_of_sorted hperm hsorted1 hsorted2
    · intro i hi hnotin
      rw [hbatch]
      refine (hpermA.mem_iff).mpr (List.mem_append.mpr (Or.inr ?_))
      exact (hFmem _).mpr ⟨i, hi, by simpa using hnotin, rfl⟩
  · intro n keys
    rfl

/-- Witness for C6: with the service returning only an entry for index 1 of
two fields, the output indices are exactly `[0, 1]` and the omitted index 0
is the synthesized entry; a failed service call yields `[]`. -/
theorem C6_batch_exactly_one_entry_per_index_witness :
    ((match_fields_batch_backend 2 ["email"]
        (.parsed [⟨some 1, some "email", 90, []⟩])).map (fun m => m.fieldIndex) =
      (List.range 2).map (fun (i : Nat) => (i : Int)) ∧
     synthMapping ((0 : Nat) : Int) ∈ match_fields_batch_backend 2 ["email"]
        (.parsed [⟨some 1, some "email", 90, []⟩])) ∧
    match_fields_batch_backend 3 ["email"] .failure = [] := by
  refine ⟨?_, C6_batch_exactly_one_entry_per_index.2 3 ["email"]⟩
  obtain ⟨h1, h2⟩ := C6_batch_exactly_one_entry_per_index.1 2 ["email"]
    [⟨some 1, some "email", 90, []⟩] (by decide)
  exact ⟨h1, h2 0 (by decide) (by decide)⟩

/-- C6 counterexample to the claim as stated: the validated list keeps
*duplicate* service indices (two raw mappings for field 0 both survive), so
index 0 appears twice in the output; and a completion-service failure
returns an empty list, not one entry per field. -/
theorem C6_duplicate_and_failure_outputs :
    ((match_fields_batch_backend 1 ["email"]
        (.parsed [⟨some 0, some "email", 90, []⟩, ⟨some 0, some "email", 80, []⟩])).map
      (fun m => m.fieldIndex)) = [0, 0] ∧
    match_fields_batch_backend 1 ["email"] .failure = [] := by
  decide

end FormBot
